import Mathlib

/-!
# Verification of the USSD dialog-engine specification

Shallow embedding of the three USSD service variants of this repository
(the GatePlus loan service, the NCSTCS courier service and the PCRS courier
service — all three are `app.js` Express handlers for `POST /ussd`) and
proofs or refutations of the frozen specification claims.

Modelling conventions:
* The session stack is a `List` in the same order as the JavaScript array:
  index 0 is the bottom of the stack, the last element is the top
  (`userSession[userSession.length - 1]`).  `push` appends on the right,
  `pop` drops the last element.
* The in-memory session cache is modelled per-session: a step receives the
  current value of the session (`Option` of a stack, `none` = absent or
  expired) and reports its effect on the store as a `StoreEff`
  (`keep` = no write, `put` = `cache.put`, `del` = `cache.del`).
* The MongoDB collections are modelled as lists of records; `findOne`
  scans in insertion order, `create` enforces the schema's `required`
  and (sparse) `unique` declarations.  A boolean `ok` on the database
  injects downstream faults: when `ok = false` every awaited repository
  call raises, which the embedding propagates as `Except.error`.
* A step returns `Except Unit Outcome`: `.error` means a JavaScript
  exception escaped the handler uncaught (no response is sent);
  `.ok` carries the JSON response (`message`, `continueSession`; the
  echoed `sessionID`/`userID`/`msisdn` fields are pure pass-through and
  are omitted), the store effect and the resulting database.
* JS machine numbers are modelled as `ℚ` (`parseFloat`) and `Nat`
  (levels); `jsTrim`/`jsToUpper` model `trim()`/`toUpperCase()` on the
  ASCII inputs the flows handle.
-/

/-- Effect of one handler invocation on the session store entry for the
request's `sessionID`: untouched, overwritten (`cache.put`), or removed
(`cache.del`). -/
inductive StoreEff (α : Type) where
  | keep : StoreEff α
  | put (s : α) : StoreEff α
  | del : StoreEff α
deriving DecidableEq, Repr

/-- JavaScript `x || d` on an optional string: `undefined` and the empty
string are falsy and fall through to the default. -/
def jsOr (x : Option String) (d : String) : String :=
  match x with
  | none => d
  | some s => if s = "" then d else s

/-- The character class `\d` of the JS regexes (ASCII digits). -/
def jsDigit (c : Char) : Bool := c.isDigit

/-- `String.prototype.trim()` as a character list: strip leading and
trailing whitespace.  (Implemented over `toList` so that concrete
evaluation reduces in the kernel.) -/
def jsTrimList (s : String) : List Char :=
  ((s.toList.dropWhile Char.isWhitespace).reverse.dropWhile Char.isWhitespace).reverse

/-- `String.prototype.trim()`. -/
def jsTrim (s : String) : String := String.mk (jsTrimList s)

/-- `String.prototype.toUpperCase()` on the ASCII strings the flows
handle. -/
def jsToUpper (s : String) : String := String.mk (s.toList.map Char.toUpper)

/-- `/^GHA-\d{9}-\d{2}$/i` applied to an explicit character list:
exactly 16 characters, the fixed letters `G`,`H`,`A` (either case), a
dash, nine digits, a dash, two digits. -/
def ghanaChars : List Char → Bool
  | [g, h, a, s1, n1, n2, n3, n4, n5, n6, n7, n8, n9, s2, m1, m2] =>
      (g == 'G' || g == 'g') &&
      (h == 'H' || h == 'h') &&
      (a == 'A' || a == 'a') &&
      (s1 == '-') &&
      List.all [n1, n2, n3, n4, n5, n6, n7, n8, n9] jsDigit &&
      (s2 == '-') &&
      List.all [m1, m2] jsDigit
  | _ => false

/-- `const isValidGhanaCard = (card) => /^GHA-\d{9}-\d{2}$/i.test(card.trim());`
(identical in all three variants). -/
def isValidGhanaCard (card : String) : Bool :=
  ghanaChars (jsTrimList card)

/-- Character admissible in the local and domain parts of
`/^[^\s@]+@[^\s@]+\.[^\s@]+$/`: anything that is neither whitespace
nor `@`. -/
def emailChar (c : Char) : Bool := !c.isWhitespace && c != '@'

/-- `const isValidEmail = (email) => /^[^\s@]+@[^\s@]+\.[^\s@]+$/.test(email.trim());`
The anchored regex forces exactly one `@`; the part before it is a
non-empty run of `[^\s@]`, the part after it is a non-empty run of
`[^\s@]` containing a `.` that is neither its first nor its last
character (so that both `[^\s@]+` around the `\.` are non-empty). -/
def isValidEmail (email : String) : Bool :=
  match (jsTrimList email).splitOn '@' with
  | [loc, dom] =>
      !loc.isEmpty && loc.all emailChar &&
      !dom.isEmpty && dom.all emailChar &&
      ((dom.drop 1).dropLast).contains '.'
  | _ => false

/-- `const isValidDVLA = (dvla) => /^[A-Za-z0-9\-]{5,}$/.test(dvla.trim());` -/
def isValidDVLA (dvla : String) : Bool :=
  let l := jsTrimList dvla
  decide (5 ≤ l.length) && l.all (fun c => c.isAlphanum || c == '-')

/-- `/^[a-zA-Z0-9_\.\-]{3,20}$/.test(username)` — the username check of the
NCSTCS and PCRS sign-up flows (case 11). -/
def usernameOk (username : String) : Bool :=
  let l := username.toList
  decide (3 ≤ l.length) && decide (l.length ≤ 20) &&
    l.all (fun c => c.isAlphanum || c == '_' || c == '.' || c == '-')

/-- `const isValidPhone = (phone) => /^(?:0|\+?233)\d{9}$/.test((phone||"").toString().trim())`
(PCRS): local `0` + 9 digits, or `233`/`+233` + 9 digits. -/
def isValidPhone (phone : String) : Bool :=
  match jsTrimList phone with
  | '0' :: ds => decide (ds.length = 9) && ds.all jsDigit
  | '+' :: '2' :: '3' :: '3' :: ds => decide (ds.length = 9) && ds.all jsDigit
  | '2' :: '3' :: '3' :: ds => decide (ds.length = 9) && ds.all jsDigit
  | _ => false

/-- `normalizePhone` (PCRS): rewrite an accepted local/international form
to E.164 `+233XXXXXXXXX`; anything else is returned unchanged. -/
def normalizePhone (phone : String) : String :=
  let t := String.mk (jsTrimList phone)
  match jsTrimList phone with
  | '0' :: ds =>
      if ds.length = 9 && ds.all jsDigit then "+233" ++ String.mk ds else t
  | '+' :: '2' :: '3' :: '3' :: ds =>
      if ds.length = 9 && ds.all jsDigit then t else t
  | '2' :: '3' :: '3' :: ds =>
      if ds.length = 9 && ds.all jsDigit then "+" ++ t else t
  | _ => t

/-- Accumulate a run of ASCII digits into a natural number. -/
def digitsToNat : List Char → Nat → Nat
  | [], acc => acc
  | c :: cs, acc => digitsToNat cs (acc * 10 + (c.toNat - 48))

/-- Exponent part of a JS float literal: optional sign then digits; if no
digit follows, `parseFloat` ignores the exponent marker (value 0). -/
def expVal (l : List Char) : Int :=
  let (neg, t) :=
    match l with
    | '-' :: t => (true, t)
    | '+' :: t => (false, t)
    | t => (false, t)
  let ds := t.takeWhile jsDigit
  if ds.isEmpty then 0
  else if neg then -(digitsToNat ds 0 : Int) else (digitsToNat ds 0 : Int)

/-- The rational `± digits / 10 ^ fracLen * 10 ^ ex` — the value of a
decimal literal with `digits` the mantissa read without its decimal
point, `fracLen` fractional digits and exponent `ex`. -/
def ratOfParts (neg : Bool) (digits : Nat) (fracLen : Nat) (ex : Int) : ℚ :=
  let v : ℚ := (digits : ℚ) / (10 : ℚ) ^ fracLen * (10 : ℚ) ^ ex
  if neg then -v else v

/-- Model of the JS builtin `parseFloat`: skip leading whitespace, read an
optional sign, an integer part, an optional fraction and an optional
exponent, ignoring any trailing junk; `none` models `NaN` (no digit at
all).  The value is exact (`ℚ`) rather than a binary float64; the loan
flow only compares the result against the bounds 10 and 1000, where the
two agree on every decimal input of that magnitude.  (The special
`Infinity` literals are also mapped to `none`; both are rejected by the
range check.) -/
def parseFloat (s : String) : Option ℚ :=
  let l := s.toList.dropWhile Char.isWhitespace
  let (neg, l1) :=
    match l with
    | '-' :: t => (true, t)
    | '+' :: t => (false, t)
    | t => (false, t)
  let ip := l1.takeWhile jsDigit
  let r1 := l1.dropWhile jsDigit
  let (fp, r2) :=
    match r1 with
    | '.' :: t => (t.takeWhile jsDigit, t.dropWhile jsDigit)
    | t => (([] : List Char), t)
  if ip.isEmpty && fp.isEmpty then none
  else
    let ex : Int :=
      match r2 with
      | 'e' :: t => expVal t
      | 'E' :: t => expVal t
      | _ => 0
    some (ratOfParts neg (digitsToNat (ip ++ fp) 0) fp.length ex)

/-! ## GatePlus variant (`app.js`, loan service) -/

namespace GP

/-- `User` document of the GatePlus schema: `fullName`, `ghanaCard`
(validated by `match: /^GHA-\d{9}-\d{2}$/i`), `msisdn`
(`unique: true`), `status` (enum). -/
structure User where
  fullName : String
  ghanaCard : String
  msisdn : String
  status : String
deriving DecidableEq, Repr

/-- `Loan` document: `msisdn`, `amount` (`min: 10, max: 1000`), `status`
(enum, default `loan_pending`), `requestedAt` (creation instant,
modelled as a monotone counter; `toLocaleDateString` is rendered with
`toString`). -/
structure Loan where
  msisdn : String
  amount : ℚ
  status : String
  requestedAt : Nat
deriving DecidableEq, Repr

/-- `ActivityLog` document (the `details` payload carries no logic and is
omitted; only the append itself matters). -/
structure LogEntry where
  msisdn : String
  action : String
deriving DecidableEq, Repr

/-- The MongoDB state seen by the GatePlus handler, plus the fault flag
`ok`: when `ok = false` every awaited repository call raises. -/
structure Db where
  users : List User
  loans : List Loan
  logs : List LogEntry
  ok : Bool
deriving DecidableEq, Repr

/-- One entry of the session stack.  The handler stores `sessionID` and
`msisdn` only on the initial entry and `fullName` only on the level-11
entry; absent JS properties are `none`. -/
structure State where
  level : Nat
  message : String
  sessionID : Option String := none
  msisdn : Option String := none
  fullName : Option String := none
deriving DecidableEq, Repr

/-- Result of one handler invocation: the JSON `message` and
`continueSession` fields, the session-store effect, and the database
afterwards. -/
structure Out where
  message : String
  continueSession : Bool
  store : StoreEff (List State)
  db : Db
deriving DecidableEq, Repr

/-- `await User.findOne({msisdn})` — raises when the repository is down. -/
def Db.findUser (db : Db) (msisdn : String) : Except Unit (Option User) :=
  if db.ok then .ok (db.users.find? (fun u => u.msisdn == msisdn)) else .error ()

/-- `await Loan.findOne({msisdn}).sort({requestedAt: -1})` — the most
recent loan for the subscriber; creations append with increasing
`requestedAt`, so this is the last matching element. -/
def Db.findLatestLoan (db : Db) (msisdn : String) : Except Unit (Option Loan) :=
  if db.ok then .ok ((db.loans.filter (fun l => l.msisdn == msisdn)).getLast?)
  else .error ()

/-- `await ActivityLog.create(...)` via `logActivity`. -/
def Db.log (db : Db) (msisdn action : String) : Except Unit Db :=
  if db.ok then .ok { db with logs := db.logs ++ [⟨msisdn, action⟩] } else .error ()

/-- `await newUser.save()`: mongoose validates the `status` enum and the
`ghanaCard` pattern and enforces the unique index on `msisdn`;
`ghanaCard` itself carries no unique constraint in this schema. -/
def Db.createUser (db : Db) (u : User) : Except Unit Db :=
  if !db.ok then .error ()
  else if db.users.any (fun v => v.msisdn == u.msisdn) then .error ()
  else if !ghanaChars u.ghanaCard.toList then .error ()
  else if !(u.status == "pending_verification" || u.status == "verified"
      || u.status == "suspended") then .error ()
  else .ok { db with users := db.users ++ [u] }

/-- `await loan.save()`: mongoose validates the `amount` bounds and the
`status` enum. -/
def Db.createLoan (db : Db) (l : Loan) : Except Unit Db :=
  if !db.ok then .error ()
  else if l.amount < 10 ∨ 1000 < l.amount then .error ()
  else if !(l.status == "loan_pending" || l.status == "disbursed"
      || l.status == "rejected") then .error ()
  else .ok { db with loans := db.loans ++ [l] }

/-- Body of the `try { ... }` block of the GatePlus `/ussd` handler
(registration flow for levels 10–19, existing-user flow otherwise);
`Except.error` is a raised exception, handled by the caller's catch. -/
def tryBody (db : Db) (stack : List State) (currentState : State)
    (userData msisdn : String) : Except Unit Out := do
  if 10 ≤ currentState.level ∧ currentState.level < 20 then
    -- === REGISTRATION FLOW (new users) ===
    if currentState.level = 10 then
      let fullName := jsTrim userData
      if fullName.length < 2 ∨ fullName.toList.any jsDigit then
        -- responds with the error prompt but does not store it
        pure ⟨"Please enter a valid name (no numbers).", true, .keep, db⟩
      else
        let message := "Enter Ghana Card (e.g., GHA-123456789-01):"
        pure ⟨message, true,
          .put (stack ++ [{ level := 11, message := message, fullName := some fullName }]), db⟩
    else if currentState.level = 11 then
      let ghanaCard := jsToUpper (jsTrim userData)
      if !isValidGhanaCard ghanaCard then
        let message := "Invalid format. Use GHA-XXXXXXXXX-XX:"
        pure ⟨message, true,
          .put (stack.dropLast ++ [{ currentState with message := message }]), db⟩
      else
        -- `userSession.find(s => s.level === 10)?.fullName || "Unknown"`
        let fullName := jsOr ((stack.find? (fun s => s.level == 10)).bind (·.fullName)) "Unknown"
        let existingUser ← db.findUser msisdn
        match existingUser with
        | some _ => pure ⟨"You are already registered.", false, .del, db⟩
        | none =>
          let db1 ← db.createUser ⟨fullName, ghanaCard, msisdn, "pending_verification"⟩
          let db2 ← db1.log msisdn "register"
          pure ⟨"Thank you, " ++ fullName ++ "!\nVerification pending. You'll be notified.",
            false, .del, db2⟩
    else
      -- levels 12–19 match no case of the inner switch; the handler falls
      -- through to the final respond with `message = ""`, continue = true
      pure ⟨"", true, .keep, db⟩
  else
    -- === EXISTING USER FLOW ===
    let userRecord? ← db.findUser msisdn
    match userRecord? with
    | none => pure ⟨"User not found. Please restart.", false, .keep, db⟩
    | some userRecord =>
      let db1 ← db.log msisdn "menu"
      if currentState.level = 1 then
        if userData = "1" then
          if userRecord.status ≠ "verified" then
            pure ⟨"Account under review. Please wait for approval.", false, .keep, db1⟩
          else
            let message := "Enter loan amount (GHS 10 - 1000):"
            pure ⟨message, true, .put (stack ++ [{ level := 2, message := message }]), db1⟩
        else if userData = "2" then
          let latestLoan? ← db1.findLatestLoan msisdn
          match latestLoan? with
          | none => pure ⟨"No loan history.", false, .keep, db1⟩
          | some latestLoan =>
            pure ⟨"Status: " ++ jsToUpper latestLoan.status ++ "\nAmount: GHS "
              ++ toString latestLoan.amount ++ "\nApplied: " ++ toString latestLoan.requestedAt,
              false, .keep, db1⟩
        else if userData = "3" then
          pure ⟨"Support: Call 0800-GATEPLUS or WhatsApp +233 123 456 789", false, .keep, db1⟩
        else
          pure ⟨"Invalid option. Choose 1, 2, or 3.", false, .keep, db1⟩
      else if currentState.level = 2 then
        match parseFloat userData with
        | none =>
          let message := "Enter amount between GHS 10 and 1000:"
          pure ⟨message, true,
            .put (stack.dropLast ++ [{ currentState with message := message }]), db1⟩
        | some amount =>
          if amount < 10 ∨ 1000 < amount then
            let message := "Enter amount between GHS 10 and 1000:"
            pure ⟨message, true,
              .put (stack.dropLast ++ [{ currentState with message := message }]), db1⟩
          else
            let db2 ← db1.createLoan ⟨msisdn, amount, "loan_pending", db1.loans.length⟩
            let db3 ← db2.log msisdn "loan_request"
            pure ⟨"Loan request for GHS " ++ toString amount
              ++ " received!\nProcessing... Funds will be sent shortly.", false, .del, db3⟩
      else
        pure ⟨"An error occurred.", false, .keep, db1⟩

/-- The GatePlus `app.post('/ussd')` handler.  The awaits of the
new-session branch run *outside* the `try`/`catch`, so a repository
fault there escapes uncaught (`Except.error`). -/
def ussd (db : Db) (sess : Option (List State)) (newSession : Bool)
    (userData msisdn sessionID : String) : Except Unit Out :=
  if newSession then
    match db.findUser msisdn with
    | .error _ => .error ()
    | .ok userRecord =>
      let message :=
        match userRecord with
        | none => "Welcome to GatePlus!\nRegister for verification to access loans.\nEnter your Full Name:"
        | some _ => "Hi there!\n1. Apply for Loan\n2. Check Status\n3. Support"
      let newState : State :=
        { level := if userRecord.isSome then 1 else 10, message := message,
          sessionID := some sessionID, msisdn := some msisdn }
      match db.log msisdn "session_start" with
      | .error _ => .error ()
      | .ok db1 => .ok ⟨message, true, .put [newState], db1⟩
  else
    match sess with
    | none => .ok ⟨"Session expired. Please restart.", false, .keep, db⟩
    | some stack =>
      match stack.getLast? with
      | none => .ok ⟨"Session expired. Please restart.", false, .keep, db⟩
      | some currentState =>
        match tryBody db stack currentState userData msisdn with
        | .ok o => .ok o
        | .error _ => .ok ⟨"Service temporarily unavailable. Try later.", false, .del, db⟩

end GP

/-! ## NCSTCS variant (`app.js`, courier service) -/

namespace NC

/-- `User` document of the NCSTCS schema: `username` and `password`
required, `username` unique, `email`/`dvlaNumber`/`ghanaCardNumber`
sparse unique, `role` an enum defaulting to `courier`. -/
structure User where
  username : String
  password : String
  role : String
  name : Option String
  email : Option String
  dvlaNumber : Option String
  ghanaCardNumber : Option String
deriving DecidableEq, Repr

/-- NCSTCS MongoDB state plus the downstream-fault flag. -/
structure Db where
  users : List User
  ok : Bool
deriving DecidableEq, Repr

/-- One entry of the NCSTCS session stack; absent JS properties are
`none`. -/
structure State where
  level : Nat
  message : String
  name : Option String := none
  username : Option String := none
  email : Option String := none
  password : Option String := none
  dvlaNumber : Option String := none
deriving DecidableEq, Repr

/-- Result of one NCSTCS handler invocation. -/
structure Out where
  message : String
  continueSession : Bool
  store : StoreEff (List State)
  db : Db
deriving DecidableEq, Repr

/-- `await User.findOne({username})`. -/
def Db.findByUsername (db : Db) (username : String) : Except Unit (Option User) :=
  if db.ok then .ok (db.users.find? (fun u => u.username == username)) else .error ()

/-- `await User.findOne({email})`. -/
def Db.findByEmail (db : Db) (email : String) : Except Unit (Option User) :=
  if db.ok then .ok (db.users.find? (fun u => u.email == some email)) else .error ()

/-- `await User.findOne({dvlaNumber})`. -/
def Db.findByDvla (db : Db) (dvlaNumber : String) : Except Unit (Option User) :=
  if db.ok then .ok (db.users.find? (fun u => u.dvlaNumber == some dvlaNumber)) else .error ()

/-- `await User.findOne({ghanaCardNumber})`. -/
def Db.findByCard (db : Db) (ghanaCardNumber : String) : Except Unit (Option User) :=
  if db.ok then .ok (db.users.find? (fun u => u.ghanaCardNumber == some ghanaCardNumber))
  else .error ()

/-- A sparse unique index clashes only when the new document carries the
field and an existing document carries the same value. -/
def sparseClash (field : Option String) (existing : List (Option String)) : Bool :=
  match field with
  | none => false
  | some v => existing.any (fun e => e == some v)

/-- `await User.create({...})`: fails on a missing required field
(`username`, `password`), on a `role` outside the enum, on the unique
index for `username` or the sparse unique indexes for `email`,
`dvlaNumber`, `ghanaCardNumber`, or when the repository is down. -/
def Db.create (db : Db) (username password : Option String) (role : String)
    (name email dvlaNumber ghanaCardNumber : Option String) : Except Unit Db :=
  if !db.ok then .error ()
  else
    match username, password with
    | some un, some pw =>
      if !(role == "admin" || role == "agency" || role == "operator"
          || role == "courier") then .error ()
      else if db.users.any (fun u => u.username == un) then .error ()
      else if sparseClash email (db.users.map (·.email)) then .error ()
      else if sparseClash dvlaNumber (db.users.map (·.dvlaNumber)) then .error ()
      else if sparseClash ghanaCardNumber (db.users.map (·.ghanaCardNumber)) then .error ()
      else .ok { db with users :=
        db.users ++ [⟨un, pw, role, name, email, dvlaNumber, ghanaCardNumber⟩] }
    | _, _ => .error ()

/-- The home menu shown on start, on `"0"` and on the default case. -/
def homeMenu : String := "NCSTCS Couriers\n1. Sign Up\n2. Lookup Courier\n3. Cancel"

/-- The courier summary rendered by the lookup flow (case 30). -/
def summary (u : User) : String :=
  "Name: " ++ jsOr u.name "-" ++ "\nUsername: " ++ u.username
    ++ "\nEmail: " ++ jsOr u.email "-" ++ "\nDVLA: " ++ jsOr u.dvlaNumber "-"
    ++ "\nGhanaCard: " ++ jsOr u.ghanaCardNumber "-"

/-- Retry-in-place: `userSession[userSession.length - 1] = {...current,
message}; return reply(message)` — replace the top entry's message,
save, continue. -/
def retry (db : Db) (stack : List State) (current : State) (message : String) : Out :=
  ⟨message, true, .put (stack.dropLast ++ [{ current with message := message }]), db⟩

/-- Body of the `try { switch (current.level) ... }` block of the NCSTCS
handler; `Except.error` is a raised exception, handled by the caller's
catch. -/
def tryBody (hash : String → String) (db : Db) (stack : List State)
    (current : State) (userData : String) : Except Unit Out := do
  if current.level = 0 then
    if userData = "1" then
      let message := "Enter Full Name:"
      pure ⟨message, true, .put (stack ++ [{ level := 10, message := message }]), db⟩
    else if userData = "2" then
      let message := "Enter DVLA or Ghana Card Number:"
      pure ⟨message, true, .put (stack ++ [{ level := 30, message := message }]), db⟩
    else
      pure ⟨"Session ended.", false, .del, db⟩
  else if current.level = 10 then
    let name := jsTrim userData
    if name = "" ∨ name.length < 3 ∨ name.toList.any jsDigit then
      pure (retry db stack current "Invalid name. Enter Full Name:")
    else
      let message := "Choose a Username:"
      pure ⟨message, true,
        .put (stack ++ [{ level := 11, message := message, name := some name }]), db⟩
  else if current.level = 11 then
    let username := jsTrim userData
    if !usernameOk username then
      pure (retry db stack current "Invalid username. Try again:")
    else
      let exists? ← db.findByUsername username
      if exists?.isSome then
        pure (retry db stack current "Username taken. Enter a different Username:")
      else
        let message := "Enter Email:"
        let st : State := { level := 12, message := message, name := current.name,
                            username := some username }
        pure ⟨message, true, .put (stack ++ [st]), db⟩
  else if current.level = 12 then
    let email := jsTrim userData
    if !isValidEmail email then
      pure (retry db stack current "Invalid email. Enter Email:")
    else
      let exists? ← db.findByEmail email
      if exists?.isSome then
        pure (retry db stack current "Email already in use. Enter a different Email:")
      else
        let message := "Create Password:"
        let st : State := { level := 13, message := message, name := current.name,
                            username := current.username, email := some email }
        pure ⟨message, true, .put (stack ++ [st]), db⟩
  else if current.level = 13 then
    let password := jsTrim userData
    if password.length < 6 then
      pure (retry db stack current "Password too short (min 6). Create Password:")
    else
      let message := "Confirm Password:"
      let st : State := { current with level := 14, message := message, password := some password }
      pure ⟨message, true, .put (stack ++ [st]), db⟩
  else if current.level = 14 then
    let confirm := jsTrim userData
    if current.password ≠ some confirm then
      -- Go back to password step: pop, then overwrite the new top's message
      let message := "Passwords do not match. Create Password:"
      let stack1 := stack.dropLast
      match stack1.getLast? with
      | none =>
        -- JS: the assignment to index -1 of the now-empty array stores no element
        pure ⟨message, true, .put stack1, db⟩
      | some p =>
        pure ⟨message, true, .put (stack1.dropLast ++ [{ p with message := message }]), db⟩
    else
      let message := "Enter DVLA License Number:"
      pure ⟨message, true, .put (stack ++ [{ current with level := 15, message := message }]), db⟩
  else if current.level = 15 then
    let dvlaNumber := jsToUpper (jsTrim userData)
    if !isValidDVLA dvlaNumber then
      pure (retry db stack current "Invalid DVLA number. Enter DVLA License Number:")
    else
      let exists? ← db.findByDvla dvlaNumber
      if exists?.isSome then
        pure (retry db stack current "DVLA already registered. Enter a different DVLA License Number:")
      else
        let message := "Enter Ghana Card (e.g., GHA-123456789-01):"
        let st : State := { current with level := 16, message := message, dvlaNumber := some dvlaNumber }
        pure ⟨message, true, .put (stack ++ [st]), db⟩
  else if current.level = 16 then
    let ghanaCardNumber := jsToUpper (jsTrim userData)
    if !isValidGhanaCard ghanaCardNumber then
      pure (retry db stack current "Invalid format. Use GHA-XXXXXXXXX-XX:")
    else
      let exists? ← db.findByCard ghanaCardNumber
      if exists?.isSome then
        pure (retry db stack current "Ghana Card already registered. Enter a different Ghana Card:")
      else
        match current.password with
        | none => .error ()  -- `bcrypt.hash(undefined, 10)` rejects; caught by the outer catch
        | some pw =>
          let hashed := hash pw
          -- inner `try { await User.create(...) } catch (e) { ... }`
          match db.create current.username (some hashed) "courier" current.name
              current.email current.dvlaNumber (some ghanaCardNumber) with
          | .error _ => pure ⟨"Registration failed. Try again later.", false, .del, db⟩
          | .ok db1 => pure ⟨"Registration successful!", false, .del, db1⟩
  else if current.level = 30 then
    let query := jsToUpper (jsTrim userData)
    let user? ← if isValidGhanaCard query then db.findByCard query else db.findByDvla query
    match user? with
    | none => pure (retry db stack current "Courier not found. 9.Back 0.Home")
    | some user => pure ⟨summary user, false, .del, db⟩
  else
    -- default: recoverable reset to the home level
    pure ⟨homeMenu, true, .put [{ level := 0, message := homeMenu }], db⟩

/-- The NCSTCS `app.post('/ussd')` handler.  `"9"` on an empty stack
dereferences `undefined` outside the `try`/`catch` and escapes uncaught
(`Except.error`). -/
def ussd (hash : String → String) (db : Db) (sess : Option (List State))
    (newSession : Bool) (userData : String) : Except Unit Out :=
  match sess with
  | none => .ok ⟨homeMenu, true, .put [{ level := 0, message := homeMenu }], db⟩
  | some stack =>
    if newSession then
      .ok ⟨homeMenu, true, .put [{ level := 0, message := homeMenu }], db⟩
    else if userData = "0" then
      .ok ⟨homeMenu, true, .put [{ level := 0, message := homeMenu }], db⟩
    else if userData = "9" then
      let stack1 := if 1 < stack.length then stack.dropLast else stack
      match stack1.getLast? with
      | none => .error ()  -- `prev.message` on `undefined`, outside the try
      | some prev => .ok ⟨prev.message, true, .put stack1, db⟩
    else
      match stack.getLast? with
      | none =>
        -- `current` is `undefined`; `current.level` raises inside the try
        .ok ⟨"Service temporarily unavailable. Try later.", false, .del, db⟩
      | some current =>
        match tryBody hash db stack current userData with
        | .ok o => .ok o
        | .error _ => .ok ⟨"Service temporarily unavailable. Try later.", false, .del, db⟩

end NC

/-! ## PCRS variant (`app.js`, courier service with phone login) -/

namespace PC

/-- `User` document of the PCRS schema: like NCSTCS plus a sparse-unique
`phone`; `id` models the MongoDB `_id`. -/
structure User where
  id : Nat
  username : String
  password : String
  role : String
  name : Option String
  phone : Option String
  email : Option String
  dvlaNumber : Option String
  ghanaCardNumber : Option String
deriving DecidableEq, Repr

/-- PCRS MongoDB state plus the downstream-fault flag. -/
structure Db where
  users : List User
  ok : Bool
deriving DecidableEq, Repr

/-- One entry of the PCRS session stack; absent JS properties are `none`
(and an absent `loggedIn` is falsy, modelled as `false`). -/
structure State where
  level : Nat
  message : String
  loggedIn : Bool := false
  userRef : Option Nat := none
  name : Option String := none
  username : Option String := none
  phone : Option String := none
  email : Option String := none
  password : Option String := none
  dvlaNumber : Option String := none
deriving DecidableEq, Repr

/-- Result of one PCRS handler invocation. -/
structure Out where
  message : String
  continueSession : Bool
  store : StoreEff (List State)
  db : Db
deriving DecidableEq, Repr

/-- `await User.findOne({username})`. -/
def Db.findByUsername (db : Db) (username : String) : Except Unit (Option User) :=
  if db.ok then .ok (db.users.find? (fun u => u.username == username)) else .error ()

/-- `await User.findOne({phone})`. -/
def Db.findByPhone (db : Db) (phone : String) : Except Unit (Option User) :=
  if db.ok then .ok (db.users.find? (fun u => u.phone == some phone)) else .error ()

/-- `await User.findOne({email})`. -/
def Db.findByEmail (db : Db) (email : String) : Except Unit (Option User) :=
  if db.ok then .ok (db.users.find? (fun u => u.email == some email)) else .error ()

/-- `await User.findOne({dvlaNumber})`. -/
def Db.findByDvla (db : Db) (dvlaNumber : String) : Except Unit (Option User) :=
  if db.ok then .ok (db.users.find? (fun u => u.dvlaNumber == some dvlaNumber)) else .error ()

/-- `await User.findOne({ghanaCardNumber})`. -/
def Db.findByCard (db : Db) (ghanaCardNumber : String) : Except Unit (Option User) :=
  if db.ok then .ok (db.users.find? (fun u => u.ghanaCardNumber == some ghanaCardNumber))
  else .error ()

/-- `await User.findById(ref)` — `findById(undefined)` resolves to `null`
without raising (but still raises when the repository is down). -/
def Db.findById (db : Db) (ref : Option Nat) : Except Unit (Option User) :=
  if db.ok then .ok (ref.bind (fun i => db.users.find? (fun u => u.id == i))) else .error ()

/-- `await User.create({...})` under the PCRS schema (unique `username`,
sparse-unique `phone`/`email`/`dvlaNumber`/`ghanaCardNumber`); the new
`_id` is modelled by the collection size. -/
def Db.create (db : Db) (username password : Option String) (role : String)
    (name phone email dvlaNumber ghanaCardNumber : Option String) : Except Unit Db :=
  if !db.ok then .error ()
  else
    match username, password with
    | some un, some pw =>
      if !(role == "admin" || role == "agency" || role == "operator"
          || role == "courier") then .error ()
      else if db.users.any (fun u => u.username == un) then .error ()
      else if NC.sparseClash phone (db.users.map (·.phone)) then .error ()
      else if NC.sparseClash email (db.users.map (·.email)) then .error ()
      else if NC.sparseClash dvlaNumber (db.users.map (·.dvlaNumber)) then .error ()
      else if NC.sparseClash ghanaCardNumber (db.users.map (·.ghanaCardNumber)) then .error ()
      else .ok { db with users :=
        db.users ++ [⟨db.users.length, un, pw, role, name, phone, email, dvlaNumber, ghanaCardNumber⟩] }
    | _, _ => .error ()

/-- JavaScript `s || d` on a plain string (only the empty string is
falsy). -/
def jsOrStr (s d : String) : String := if s = "" then d else s

/-- `existing.name || existing.username || existing.phone || "Courier"`. -/
def displayName (u : User) : String :=
  jsOr u.name (jsOrStr u.username (jsOr u.phone "Courier"))

/-- The guest home menu. -/
def homeMenu : String := "PCRS Couriers\n1. Sign Up\n2. Lookup Courier\n3. Cancel"

/-- The authenticated home menu. -/
def hiMenu (n : String) : String :=
  "Hi " ++ n ++ "\n1. View My Details\n2. Lookup Courier\n3. Cancel"

/-- The courier summary rendered by lookup (case 30) and by
View My Details. -/
def summary (u : User) : String :=
  "Name: " ++ jsOr u.name "-" ++ "\nUsername: " ++ u.username
    ++ "\nPhone: " ++ jsOr u.phone "-" ++ "\nEmail: " ++ jsOr u.email "-"
    ++ "\nDVLA: " ++ jsOr u.dvlaNumber "-" ++ "\nGhanaCard: " ++ jsOr u.ghanaCardNumber "-"

/-- Retry-in-place: replace the top entry's message, save, continue. -/
def retry (db : Db) (stack : List State) (current : State) (message : String) : Out :=
  ⟨message, true, .put (stack.dropLast ++ [{ current with message := message }]), db⟩

/-- The info screen shown before sign-up (level 5). -/
def infoScreen : String :=
  "📄 To register, you'll need:\n\n• DVLA License Number\n• Ghana Card (e.g., GHA-123456789-01)\n\nWe'll also collect:\n• Full Name\n• Username\n• Phone\n• Email\n• Password\n\nPress 1 to continue"

/-- Body of the `try { switch (current.level) ... }` block of the PCRS
handler. -/
def tryBody (hash : String → String) (db : Db) (stack : List State)
    (current : State) (userData : String) : Except Unit Out := do
  if current.level = 0 then
    if current.loggedIn then
      if userData = "1" then
        -- View My Details, with its own local try/catch
        let message :=
          match db.findById (stack.head?.bind (·.userRef)) with
          | .error _ => "Unable to fetch details at the moment."
          | .ok none => "Account not found."
          | .ok (some me) => summary me
        pure ⟨message, false, .del, db⟩
      else if userData = "2" then
        let message := "Enter DVLA or Ghana Card Number:"
        pure ⟨message, true, .put (stack ++ [{ level := 30, message := message }]), db⟩
      else
        pure ⟨"Session ended.", false, .del, db⟩
    else
      if userData = "1" then
        pure ⟨infoScreen, true, .put (stack ++ [{ level := 5, message := infoScreen }]), db⟩
      else if userData = "2" then
        let message := "Enter DVLA or Ghana Card Number:"
        pure ⟨message, true, .put (stack ++ [{ level := 30, message := message }]), db⟩
      else
        pure ⟨"Session ended.", false, .del, db⟩
  else if current.level = 5 then
    -- Proceed to name entry regardless of input (USSD convention)
    let message := "Enter Full Name:"
    pure ⟨message, true, .put (stack ++ [{ level := 10, message := message }]), db⟩
  else if current.level = 10 then
    let name := jsTrim userData
    if name = "" ∨ name.length < 3 ∨ name.toList.any jsDigit then
      pure (retry db stack current "Invalid name. Enter Full Name:")
    else
      let message := "Choose a Username:"
      let st : State := { level := 11, message := message, name := some name }
      pure ⟨message, true, .put (stack ++ [st]), db⟩
  else if current.level = 11 then
    let username := jsTrim userData
    if !usernameOk username then
      pure (retry db stack current "Invalid username. Try again:")
    else
      let exists? ← db.findByUsername username
      if exists?.isSome then
        pure (retry db stack current "Username taken. Enter a different Username:")
      else
        let message := "Enter Phone Number (e.g., 024XXXXXXX):"
        let st : State := { level := 12, message := message, name := current.name,
                            username := some username }
        pure ⟨message, true, .put (stack ++ [st]), db⟩
  else if current.level = 12 then
    let rawPhone := jsTrim userData
    if !isValidPhone rawPhone then
      pure (retry db stack current "Invalid phone. Enter Phone Number (e.g., 024XXXXXXX):")
    else
      let phone := normalizePhone rawPhone
      let exists? ← db.findByPhone phone
      if exists?.isSome then
        pure (retry db stack current "Phone already registered. Enter a different Phone Number:")
      else
        let message := "Enter Email:"
        let st : State := { level := 13, message := message, name := current.name,
                            username := current.username, phone := some phone }
        pure ⟨message, true, .put (stack ++ [st]), db⟩
  else if current.level = 13 then
    let email := jsTrim userData
    if !isValidEmail email then
      pure (retry db stack current "Invalid email. Enter Email:")
    else
      let exists? ← db.findByEmail email
      if exists?.isSome then
        pure (retry db stack current "Email already in use. Enter a different Email:")
      else
        let message := "Create Password:"
        let st : State := { level := 14, message := message, name := current.name,
                            username := current.username, phone := current.phone,
                            email := some email }
        pure ⟨message, true, .put (stack ++ [st]), db⟩
  else if current.level = 14 then
    let password := jsTrim userData
    if password.length < 6 then
      pure (retry db stack current "Password too short (min 6). Create Password:")
    else
      let message := "Confirm Password:"
      let st : State := { current with level := 15, message := message, password := some password }
      pure ⟨message, true, .put (stack ++ [st]), db⟩
  else if current.level = 15 then
    let confirm := jsTrim userData
    if current.password ≠ some confirm then
      -- Go back to password step
      let message := "Passwords do not match. Create Password:"
      let stack1 := stack.dropLast
      match stack1.getLast? with
      | none => pure ⟨message, true, .put stack1, db⟩
      | some p =>
        pure ⟨message, true, .put (stack1.dropLast ++ [{ p with message := message }]), db⟩
    else
      let message := "Enter DVLA License Number:"
      pure ⟨message, true, .put (stack ++ [{ current with level := 16, message := message }]), db⟩
  else if current.level = 16 then
    let dvlaNumber := jsToUpper (jsTrim userData)
    if !isValidDVLA dvlaNumber then
      pure (retry db stack current "Invalid DVLA number. Enter DVLA License Number:")
    else
      let exists? ← db.findByDvla dvlaNumber
      if exists?.isSome then
        pure (retry db stack current "DVLA already registered. Enter a different DVLA License Number:")
      else
        let message := "Enter Ghana Card (e.g., GHA-123456789-01):"
        let st : State := { current with level := 17, message := message, dvlaNumber := some dvlaNumber }
        pure ⟨message, true, .put (stack ++ [st]), db⟩
  else if current.level = 17 then
    let ghanaCardNumber := jsToUpper (jsTrim userData)
    if !isValidGhanaCard ghanaCardNumber then
      pure (retry db stack current "Invalid format. Use GHA-XXXXXXXXX-XX:")
    else
      let exists? ← db.findByCard ghanaCardNumber
      if exists?.isSome then
        pure (retry db stack current "Ghana Card already registered. Enter a different Ghana Card:")
      else
        match current.password with
        | none => .error ()  -- `bcrypt.hash(undefined, 10)` rejects; caught by the outer catch
        | some pw =>
          let hashed := hash pw
          match db.create current.username (some hashed) "courier" current.name
              current.phone current.email current.dvlaNumber (some ghanaCardNumber) with
          | .error _ => pure ⟨"Registration failed. Try again later.", false, .del, db⟩
          | .ok db1 =>
            pure ⟨"Registration successful!\n\nAn SMS will be sent to your phone shortly. Please follow the link in the SMS to upload your:\n• DVLA License\n• Ghana Card",
              false, .del, db1⟩
  else if current.level = 30 then
    let query := jsToUpper (jsTrim userData)
    let user? ← if isValidGhanaCard query then db.findByCard query else db.findByDvla query
    match user? with
    | none => pure (retry db stack current "Courier not found. 9.Back 0.Home")
    | some user => pure ⟨summary user, false, .del, db⟩
  else
    pure ⟨homeMenu, true, .put [{ level := 0, message := homeMenu }], db⟩

/-- `if (newSession || !userSession) { ... }` — the start-or-restart
branch of the PCRS handler. -/
def start (db : Db) (msisdn : String) : Out :=
  -- Start or restart session: identify the user by msisdn phone, guarded
  -- by a local try/catch falling back to the guest menu
  let phone := normalizePhone msisdn
  let (message, st) :=
    match (if phone = "" then Except.ok none else db.findByPhone phone : Except Unit (Option User)) with
    | .error _ => (homeMenu, ({ level := 0, message := homeMenu } : State))
    | .ok none => (homeMenu, ({ level := 0, message := homeMenu } : State))
    | .ok (some existing) =>
      let m := hiMenu (displayName existing)
      (m, { level := 0, message := m, loggedIn := true, userRef := some existing.id })
  ⟨message, true, .put [st], db⟩

/-- The PCRS `app.post('/ussd')` handler.  The start branch and the Home
branch resolve the caller's identity with their own local try/catch
(falling back to the guest or generic menu), so repository faults there
never reach the outer catch. -/
def ussd (hash : String → String) (db : Db) (sess : Option (List State))
    (newSession : Bool) (userData msisdn : String) : Except Unit Out :=
  match sess with
  | none => .ok (start db msisdn)
  | some stack =>
    if newSession then .ok (start db msisdn)
    else if userData = "0" then
      -- Rebuild the appropriate home menu depending on login status
      let loggedIn := (stack.head?.map (·.loggedIn)).getD false
      if loggedIn then
        let userRef := stack.head?.bind (·.userRef)
        let message :=
          match db.findById userRef with
          | .error _ => "Hi Courier\n1. View My Details\n2. Lookup Courier\n3. Cancel"
          | .ok me =>
            hiMenu (match me with | some u => displayName u | none => "Courier")
        let st : State := { level := 0, message := message, loggedIn := true, userRef := userRef }
        .ok ⟨message, true, .put [st], db⟩
      else
        .ok ⟨homeMenu, true, .put [{ level := 0, message := homeMenu }], db⟩
    else if userData = "9" then
      let stack1 := if 1 < stack.length then stack.dropLast else stack
      match stack1.getLast? with
      | none => .error ()  -- `prev.message` on `undefined`, outside the try
      | some prev => .ok ⟨prev.message, true, .put stack1, db⟩
    else
      match stack.getLast? with
      | none => .ok ⟨"Service temporarily unavailable. Try later.", false, .del, db⟩
      | some current =>
        match tryBody hash db stack current userData with
        | .ok o => .ok o
        | .error _ => .ok ⟨"Service temporarily unavailable. Try later.", false, .del, db⟩

end PC

/-! ## Claim C8 — the national-identity-card validator -/

/-- The specification's shape for the identity-card pattern, stated
positionally over the trimmed character list with the *fixed* letters
`G`,`H`,`A` accepted in either case: length 16, `G`/`g`, `H`/`h`,
`A`/`a`, a dash, nine digits, a dash, two digits. -/
def ghanaShapeList (l : List Char) : Bool :=
  (l.length == 16) &&
  (l.getD 0 ' ' == 'G' || l.getD 0 ' ' == 'g') &&
  (l.getD 1 ' ' == 'H' || l.getD 1 ' ' == 'h') &&
  (l.getD 2 ' ' == 'A' || l.getD 2 ' ' == 'a') &&
  (l.getD 3 ' ' == '-') &&
  ((l.drop 4).take 9).all jsDigit &&
  (l.getD 13 ' ' == '-') &&
  (l.drop 14).all jsDigit

/-- `ghanaShapeList` on the trimmed string. -/
def ghanaShape (s : String) : Bool := ghanaShapeList (jsTrimList s)

/-- The pattern exactly as claim C8 reads it: *any* three (ASCII)
letters before the first dash, case-insensitively. -/
def claimGhanaShape (s : String) : Bool :=
  let l := jsTrimList s
  (l.length == 16) &&
  (l.take 3).all Char.isAlpha &&
  (l.getD 3 ' ' == '-') &&
  ((l.drop 4).take 9).all jsDigit &&
  (l.getD 13 ' ' == '-') &&
  (l.drop 14).all jsDigit

theorem ghanaChars_eq_shape (l : List Char) : ghanaChars l = ghanaShapeList l := by
  rcases l with _ | ⟨c0, l⟩
  · rfl
  rcases l with _ | ⟨c1, l⟩
  · rfl
  rcases l with _ | ⟨c2, l⟩
  · rfl
  rcases l with _ | ⟨c3, l⟩
  · rfl
  rcases l with _ | ⟨c4, l⟩
  · rfl
  rcases l with _ | ⟨c5, l⟩
  · rfl
  rcases l with _ | ⟨c6, l⟩
  · rfl
  rcases l with _ | ⟨c7, l⟩
  · rfl
  rcases l with _ | ⟨c8, l⟩
  · rfl
  rcases l with _ | ⟨c9, l⟩
  · rfl
  rcases l with _ | ⟨c10, l⟩
  · rfl
  rcases l with _ | ⟨c11, l⟩
  · rfl
  rcases l with _ | ⟨c12, l⟩
  · rfl
  rcases l with _ | ⟨c13, l⟩
  · rfl
  rcases l with _ | ⟨c14, l⟩
  · rfl
  rcases l with _ | ⟨c15, l⟩
  · rfl
  rcases l with _ | ⟨c16, l⟩
  · rfl
  · rfl

/-- **C8, counterexample.**  The claim says the validator accepts every
trimmed string of the shape "3 letters, dash, 9 digits, dash, 2 digits"
for *any* 3 letters; `"ABC-123456789-01"` has that shape, yet
`isValidGhanaCard` (the regex `/^GHA-\d{9}-\d{2}$/i`) rejects it:
the three letters are fixed to `G`,`H`,`A`. -/
theorem c8_counterexample :
    claimGhanaShape "ABC-123456789-01" = true ∧
      isValidGhanaCard "ABC-123456789-01" = false := by
  decide

/-- **C8, amended.**  The national-identity-card validator accepts
exactly the trimmed strings matching "the literal letters `G`,`H`,`A`
(case-insensitively), a dash, 9 digits, a dash, 2 digits": on every
string, `isValidGhanaCard` agrees with the positional shape predicate
`ghanaShape` with the fixed prefix. -/
theorem c8_amended (s : String) : isValidGhanaCard s = ghanaShape s :=
  ghanaChars_eq_shape (jsTrimList s)

/-- **C8, amended, witness.**  Concrete instances: the canonical card is
accepted (also lower-case), a wrong-letter card and a short card are
rejected. -/
theorem c8_amended_witness :
    isValidGhanaCard "GHA-123456789-01" = ghanaShape "GHA-123456789-01" ∧
      isValidGhanaCard "gha-000011122-333" = ghanaShape "gha-000011122-333" ∧
      isValidGhanaCard "GHA-123456789-01" = true ∧
      isValidGhanaCard "gha-123456789-01" = true ∧
      isValidGhanaCard "GHA-12345678-01" = false :=
  ⟨c8_amended "GHA-123456789-01", c8_amended "gha-000011122-333",
    by decide, by decide, by decide⟩

/-! ## Claim C2 — the session-expired path -/

/-- **C2, counterexample.**  In the NCSTCS variant a request with
`newSession = false` whose token is absent from the store does *not*
get the fixed session-expired response: the `if (newSession ||
!userSession)` branch restarts the dialog — home menu,
`continueSession = true`, and a fresh single-entry stack written to the
store. -/
theorem c2_counterexample :
    NC.ussd (fun p => p) ⟨[], true⟩ none false "1" =
      .ok ⟨NC.homeMenu, true, .put [{ level := 0, message := NC.homeMenu }], ⟨[], true⟩⟩ ∧
      NC.homeMenu ≠ "Session expired. Please restart." :=
  ⟨rfl, by decide⟩

/-- **C2, amended.**  Only the GatePlus variant has a session-expired
path: for every request with `newSession = false` and an absent (or
empty) session, GatePlus responds with the fixed expired message,
`continueSession = false`, no session write and no repository write
(`Out.db` is the unchanged input database).  The NCSTCS and PCRS
variants instead treat an absent session as a session start: home menu,
`continueSession = true`, a fresh single-entry stack written to the
store, and no repository write (PCRS performs only an identity *read*). -/
theorem c2_amended :
    (∀ (db : GP.Db) (userData msisdn sessionID : String),
      GP.ussd db none false userData msisdn sessionID =
        .ok ⟨"Session expired. Please restart.", false, .keep, db⟩) ∧
    (∀ (db : GP.Db) (userData msisdn sessionID : String),
      GP.ussd db (some []) false userData msisdn sessionID =
        .ok ⟨"Session expired. Please restart.", false, .keep, db⟩) ∧
    (∀ (hash : String → String) (db : NC.Db) (userData : String),
      NC.ussd hash db none false userData =
        .ok ⟨NC.homeMenu, true, .put [{ level := 0, message := NC.homeMenu }], db⟩) ∧
    (∀ (hash : String → String) (db : PC.Db) (userData msisdn : String),
      ∃ st : PC.State, PC.ussd hash db none false userData msisdn =
        .ok ⟨st.message, true, .put [st], db⟩ ∧ st.level = 0) := by
  refine ⟨fun db u m s => rfl, fun db u m s => rfl, fun h db u => rfl, fun h db u m => ?_⟩
  unfold PC.ussd PC.start
  rcases hfind : (if normalizePhone m = "" then Except.ok none
      else db.findByPhone (normalizePhone m) : Except Unit (Option PC.User)) with e | u'
  · exact ⟨{ level := 0, message := PC.homeMenu }, by simp [hfind], rfl⟩
  · rcases u' with _ | u'
    · exact ⟨{ level := 0, message := PC.homeMenu }, by simp [hfind], rfl⟩
    · exact ⟨{ level := 0, message := PC.hiMenu (PC.displayName u'), loggedIn := true,
               userRef := some u'.id }, by simp [hfind], rfl⟩

/-- **C2, amended, witness.**  The amended behaviours at concrete
inputs: GatePlus expired response, NCSTCS restart, PCRS restart. -/
theorem c2_amended_witness :
    GP.ussd ⟨[], [], [], true⟩ none false "1" "0240000001" "sid" =
      .ok ⟨"Session expired. Please restart.", false, .keep, ⟨[], [], [], true⟩⟩ ∧
    NC.ussd (fun p => p) ⟨[], true⟩ none false "2" =
      .ok ⟨NC.homeMenu, true, .put [{ level := 0, message := NC.homeMenu }], ⟨[], true⟩⟩ ∧
    (∃ st : PC.State, PC.ussd (fun p => p) ⟨[], true⟩ none false "2" "bad" =
      .ok ⟨st.message, true, .put [st], ⟨[], true⟩⟩ ∧ st.level = 0) :=
  ⟨c2_amended.1 ⟨[], [], [], true⟩ "1" "0240000001" "sid",
   c2_amended.2.2.1 (fun p => p) ⟨[], true⟩ "2",
   c2_amended.2.2.2 (fun p => p) ⟨[], true⟩ "2" "bad"⟩

/-! ## Claim C3 — Home (`"0"`) -/

/-- **C3.**  For every existing session (any stack, any prior depth),
input `"0"` replaces the whole stack by a single-entry stack at the
home level and continues the session.  In NCSTCS the home menu is
fixed; in PCRS the resulting single entry is at level 0, and when the
session was authenticated (bottom entry `loggedIn` with a resolvable
`userRef`) the menu is re-personalized from the freshly fetched
record. -/
theorem c3_home :
    (∀ (hash : String → String) (db : NC.Db) (stack : List NC.State),
      NC.ussd hash db (some stack) false "0" =
        .ok ⟨NC.homeMenu, true, .put [{ level := 0, message := NC.homeMenu }], db⟩) ∧
    (∀ (hash : String → String) (db : PC.Db) (stack : List PC.State) (msisdn : String),
      ∃ st : PC.State, PC.ussd hash db (some stack) false "0" msisdn =
        .ok ⟨st.message, true, .put [st], db⟩ ∧ st.level = 0) ∧
    (∀ (hash : String → String) (db : PC.Db) (stack : List PC.State) (msisdn : String)
      (b : PC.State) (i : Nat) (u : PC.User),
      stack.head? = some b → b.loggedIn = true → b.userRef = some i →
      db.ok = true → db.users.find? (fun v => v.id == i) = some u →
      PC.ussd hash db (some stack) false "0" msisdn =
        .ok ⟨PC.hiMenu (PC.displayName u), true,
             .put [{ level := 0, message := PC.hiMenu (PC.displayName u),
                     loggedIn := true, userRef := some i }], db⟩) := by
  refine ⟨fun hash db stack => rfl, fun hash db stack m => ?_,
    fun hash db stack m b i u hb hlog href hok hfind => ?_⟩
  · unfold PC.ussd
    by_cases hl : (stack.head?.map (·.loggedIn)).getD false = true
    · simp only [if_neg (by decide : ¬(false = true)), if_pos rfl, hl, if_pos]
      rcases hfind : db.findById (stack.head?.bind (·.userRef)) with e | me
      · exact ⟨{ level := 0, message := "Hi Courier\n1. View My Details\n2. Lookup Courier\n3. Cancel",
                 loggedIn := true, userRef := stack.head?.bind (·.userRef) }, by simp [hfind], rfl⟩
      · rcases me with _ | u
        · exact ⟨{ level := 0, message := PC.hiMenu "Courier",
                   loggedIn := true, userRef := stack.head?.bind (·.userRef) }, by simp [hfind], rfl⟩
        · exact ⟨{ level := 0, message := PC.hiMenu (PC.displayName u),
                   loggedIn := true, userRef := stack.head?.bind (·.userRef) }, by simp [hfind], rfl⟩
    · simp only [Bool.not_eq_true] at hl
      exact ⟨{ level := 0, message := PC.homeMenu }, by simp [hl], rfl⟩
  · unfold PC.ussd
    have h1 : db.findById (some i) = .ok (some u) := by
      simp [PC.Db.findById, hok, hfind]
    simp [hb, hlog, href, h1]

/-- **C3, witness.**  Home from a depth-3 NCSTCS session and from a
depth-2 authenticated PCRS session (the latter personalized to the
stored courier "Ada"), both collapsing to depth 1. -/
theorem c3_home_witness :
    NC.ussd (fun p => p) ⟨[], true⟩
      (some [{ level := 0, message := NC.homeMenu },
             { level := 10, message := "Enter Full Name:" },
             { level := 11, message := "Choose a Username:", name := some "Ama" }]) false "0" =
      .ok ⟨NC.homeMenu, true, .put [{ level := 0, message := NC.homeMenu }], ⟨[], true⟩⟩ ∧
    PC.ussd (fun p => p)
      ⟨[⟨0, "ada", "h", "courier", some "Ada", some "+233240000001", none, none, none⟩], true⟩
      (some [{ level := 0, message := "x", loggedIn := true, userRef := some 0 },
             { level := 30, message := "Enter DVLA or Ghana Card Number:" }]) false "0" "+233240000001" =
      .ok ⟨PC.hiMenu "Ada", true,
           .put [{ level := 0, message := PC.hiMenu "Ada", loggedIn := true, userRef := some 0 }],
           ⟨[⟨0, "ada", "h", "courier", some "Ada", some "+233240000001", none, none, none⟩], true⟩⟩ := by
  constructor
  · exact c3_home.1 (fun p => p) ⟨[], true⟩ _
  · have h := c3_home.2.2 (fun p => p)
      ⟨[⟨0, "ada", "h", "courier", some "Ada", some "+233240000001", none, none, none⟩], true⟩
      [{ level := 0, message := "x", loggedIn := true, userRef := some 0 },
       { level := 30, message := "Enter DVLA or Ghana Card Number:" }] "+233240000001"
      { level := 0, message := "x", loggedIn := true, userRef := some 0 } 0
      ⟨0, "ada", "h", "courier", some "Ada", some "+233240000001", none, none, none⟩
      rfl rfl rfl rfl (by decide)
    simpa using h

/-! ## Claim C4 — Back (`"9"`) -/

/-- Feed the store effect of one NCSTCS invocation back into the session
store and return the resulting stack (old stack when the entry is
untouched; empty when it was deleted or the handler crashed). -/
def ncStepStack (hash : String → String) (db : NC.Db) (stack : List NC.State)
    (userData : String) : List NC.State :=
  match NC.ussd hash db (some stack) false userData with
  | .ok o =>
    match o.store with
    | .put s => s
    | .del => []
    | .keep => stack
  | .error _ => stack

/-- The stack after `n` repeated Back (`"9"`) inputs (NCSTCS). -/
def ncBackIter (hash : String → String) (db : NC.Db) (stack : List NC.State) :
    Nat → List NC.State
  | 0 => stack
  | n + 1 => ncStepStack hash db (ncBackIter hash db stack n) "9"

/-- As `ncStepStack`, for the PCRS handler. -/
def pcStepStack (hash : String → String) (db : PC.Db) (stack : List PC.State)
    (userData msisdn : String) : List PC.State :=
  match PC.ussd hash db (some stack) false userData msisdn with
  | .ok o =>
    match o.store with
    | .put s => s
    | .del => []
    | .keep => stack
  | .error _ => stack

/-- The stack after `n` repeated Back (`"9"`) inputs (PCRS). -/
def pcBackIter (hash : String → String) (db : PC.Db) (stack : List PC.State)
    (msisdn : String) : Nat → List PC.State
  | 0 => stack
  | n + 1 => pcStepStack hash db (pcBackIter hash db stack msisdn n) "9" msisdn

/-- **C4.**  Back (`"9"`) in the NCSTCS and PCRS variants: at depth > 1
it pops exactly one entry and re-renders the parent's stored message
with the session continuing; at depth 1 it leaves the stack unchanged
(the same single entry is re-saved), and iterating it any number of
times still leaves the stack unchanged and re-renders the same
message. -/
theorem c4_back :
    (∀ (hash : String → String) (db : NC.Db) (r : List NC.State) (p c : NC.State),
      NC.ussd hash db (some (r ++ [p, c])) false "9" =
        .ok ⟨p.message, true, .put (r ++ [p]), db⟩) ∧
    (∀ (hash : String → String) (db : NC.Db) (d : NC.State) (n : Nat),
      ncBackIter hash db [d] n = [d] ∧
      NC.ussd hash db (some (ncBackIter hash db [d] n)) false "9" =
        .ok ⟨d.message, true, .put [d], db⟩) ∧
    (∀ (hash : String → String) (db : PC.Db) (msisdn : String) (r : List PC.State) (p c : PC.State),
      PC.ussd hash db (some (r ++ [p, c])) false "9" msisdn =
        .ok ⟨p.message, true, .put (r ++ [p]), db⟩) ∧
    (∀ (hash : String → String) (db : PC.Db) (msisdn : String) (d : PC.State) (n : Nat),
      pcBackIter hash db [d] msisdn n = [d] ∧
      PC.ussd hash db (some (pcBackIter hash db [d] msisdn n)) false "9" msisdn =
        .ok ⟨d.message, true, .put [d], db⟩) := by
  have h0 : ("9" : String) ≠ "0" := by decide
  refine ⟨fun hash db r p c => ?_, fun hash db d n => ?_,
    fun hash db m r p c => ?_, fun hash db m d n => ?_⟩
  · unfold NC.ussd
    have hlen : 1 < (r ++ [p, c]).length := by simp
    have hdrop : (r ++ [p, c]).dropLast = r ++ [p] := by
      rw [show r ++ [p, c] = (r ++ [p]) ++ [c] by simp]
      exact List.dropLast_concat
    simp [h0, hlen, hdrop, List.getLast?_concat]
  · induction n with
    | zero => exact ⟨rfl, rfl⟩
    | succ n ih =>
      have hstep : ncBackIter hash db [d] (n + 1) = [d] := by
        show ncStepStack hash db (ncBackIter hash db [d] n) "9" = [d]
        rw [ih.1]
        rfl
      exact ⟨hstep, by rw [hstep]; rfl⟩
  · unfold PC.ussd
    have hlen : 1 < (r ++ [p, c]).length := by simp
    have hdrop : (r ++ [p, c]).dropLast = r ++ [p] := by
      rw [show r ++ [p, c] = (r ++ [p]) ++ [c] by simp]
      exact List.dropLast_concat
    simp [h0, hlen, hdrop, List.getLast?_concat]
  · induction n with
    | zero => exact ⟨rfl, rfl⟩
    | succ n ih =>
      have hstep : pcBackIter hash db [d] m (n + 1) = [d] := by
        show pcStepStack hash db (pcBackIter hash db [d] m n) "9" m = [d]
        rw [ih.1]
        rfl
      exact ⟨hstep, by rw [hstep]; rfl⟩

/-- **C4, witness.**  Back from a depth-2 NCSTCS stack pops to the home
entry and re-renders its menu; Back applied 5 times to a depth-1 PCRS
stack leaves it unchanged with the same message. -/
theorem c4_back_witness :
    NC.ussd (fun p => p) ⟨[], true⟩
      (some [{ level := 0, message := NC.homeMenu },
             { level := 10, message := "Enter Full Name:" }]) false "9" =
      .ok ⟨NC.homeMenu, true, .put [{ level := 0, message := NC.homeMenu }], ⟨[], true⟩⟩ ∧
    (pcBackIter (fun p => p) ⟨[], true⟩ [{ level := 0, message := PC.homeMenu }] "m" 5 =
      [{ level := 0, message := PC.homeMenu }] ∧
    PC.ussd (fun p => p) ⟨[], true⟩
      (some (pcBackIter (fun p => p) ⟨[], true⟩ [{ level := 0, message := PC.homeMenu }] "m" 5))
      false "9" "m" =
      .ok ⟨PC.homeMenu, true, .put [{ level := 0, message := PC.homeMenu }], ⟨[], true⟩⟩) := by
  constructor
  · have h := c4_back.1 (fun p => p) ⟨[], true⟩ []
      { level := 0, message := NC.homeMenu } { level := 10, message := "Enter Full Name:" }
    simpa using h
  · exact c4_back.2.2.2 (fun p => p) ⟨[], true⟩ "m" { level := 0, message := PC.homeMenu } 5

/-! ## Dispatch helper lemmas (shared) -/

/-- Dispatch of the NCSTCS handler into the try/catch around its level
switch, for an existing session and a non-navigation input. -/
theorem nc_dispatch (hash : String → String) (db : NC.Db) (stack : List NC.State)
    (cur : NC.State) (input : String) (h0 : input ≠ "0") (h9 : input ≠ "9")
    (htop : stack.getLast? = some cur) :
    NC.ussd hash db (some stack) false input =
      match NC.tryBody hash db stack cur input with
      | .ok o => .ok o
      | .error _ => .ok ⟨"Service temporarily unavailable. Try later.", false, .del, db⟩ := by
  unfold NC.ussd
  simp [h0, h9, htop]

/-- Dispatch of the PCRS handler into the try/catch around its level
switch. -/
theorem pc_dispatch (hash : String → String) (db : PC.Db) (stack : List PC.State)
    (cur : PC.State) (input msisdn : String) (h0 : input ≠ "0") (h9 : input ≠ "9")
    (htop : stack.getLast? = some cur) :
    PC.ussd hash db (some stack) false input msisdn =
      match PC.tryBody hash db stack cur input with
      | .ok o => .ok o
      | .error _ => .ok ⟨"Service temporarily unavailable. Try later.", false, .del, db⟩ := by
  unfold PC.ussd
  simp [h0, h9, htop]

/-- Dispatch of the GatePlus handler into the try/catch around its level
logic, for an existing non-empty session. -/
theorem gp_dispatch (db : GP.Db) (stack : List GP.State) (cur : GP.State)
    (input msisdn sessionID : String) (htop : stack.getLast? = some cur) :
    GP.ussd db (some stack) false input msisdn sessionID =
      match GP.tryBody db stack cur input msisdn with
      | .ok o => .ok o
      | .error _ => .ok ⟨"Service temporarily unavailable. Try later.", false, .del, db⟩ := by
  unfold GP.ussd
  simp [htop]

/-! ## Claim C6 — unhandled/default level -/

/-- **C6, counterexample.**  In the GatePlus variant an unknown
top-of-stack level (here 3) is *not* a recoverable reset-to-home: the
default case of the switch answers "An error occurred." with
`continueSession = false`, leaving the old stack in the store (only
the pre-switch activity-log append happens). -/
theorem c6_counterexample :
    GP.ussd ⟨[⟨"Ama", "GHA-123456789-01", "0240000001", "verified"⟩], [], [], true⟩
      (some [{ level := 3, message := "m" }]) false "1" "0240000001" "sid" =
      .ok ⟨"An error occurred.", false, .keep,
        ⟨[⟨"Ama", "GHA-123456789-01", "0240000001", "verified"⟩], [],
         [⟨"0240000001", "menu"⟩], true⟩⟩ := by
  rfl

/-- **C6, amended.**  In the NCSTCS and PCRS variants an unknown
top-of-stack level is a recoverable local error: the stack is reset to
a single entry at the home level and the session continues.  In the
GatePlus variant the default case instead responds "An error
occurred." with `continueSession = false`, leaving the stack in place
(after the pre-switch activity-log append). -/
theorem c6_amended :
    (∀ (hash : String → String) (db : NC.Db) (stack : List NC.State)
      (cur : NC.State) (input : String), input ≠ "0" → input ≠ "9" →
      stack.getLast? = some cur →
      cur.level ∉ ([0, 10, 11, 12, 13, 14, 15, 16, 30] : List Nat) →
      NC.ussd hash db (some stack) false input =
        .ok ⟨NC.homeMenu, true, .put [{ level := 0, message := NC.homeMenu }], db⟩) ∧
    (∀ (hash : String → String) (db : PC.Db) (stack : List PC.State)
      (cur : PC.State) (input msisdn : String), input ≠ "0" → input ≠ "9" →
      stack.getLast? = some cur →
      cur.level ∉ ([0, 5, 10, 11, 12, 13, 14, 15, 16, 17, 30] : List Nat) →
      PC.ussd hash db (some stack) false input msisdn =
        .ok ⟨PC.homeMenu, true, .put [{ level := 0, message := PC.homeMenu }], db⟩) ∧
    (∀ (db : GP.Db) (stack : List GP.State) (cur : GP.State)
      (input msisdn sessionID : String) (u : GP.User),
      stack.getLast? = some cur →
      ¬(10 ≤ cur.level ∧ cur.level < 20) → cur.level ≠ 1 → cur.level ≠ 2 →
      db.ok = true → db.users.find? (fun v => v.msisdn == msisdn) = some u →
      GP.ussd db (some stack) false input msisdn sessionID =
        .ok ⟨"An error occurred.", false, .keep,
          { db with logs := db.logs ++ [⟨msisdn, "menu"⟩] }⟩) := by
  refine ⟨fun hash db stack cur input h0 h9 htop hlv => ?_,
    fun hash db stack cur input m h0 h9 htop hlv => ?_,
    fun db stack cur input m sid u htop hreg h1 h2 hok hfind => ?_⟩
  · rw [nc_dispatch hash db stack cur input h0 h9 htop]
    simp [List.mem_cons] at hlv
    obtain ⟨a0, a10, a11, a12, a13, a14, a15, a16, a30⟩ := hlv
    unfold NC.tryBody
    simp [a0, a10, a11, a12, a13, a14, a15, a16, a30]
    rfl
  · rw [pc_dispatch hash db stack cur input m h0 h9 htop]
    simp [List.mem_cons] at hlv
    obtain ⟨a0, a5, a10, a11, a12, a13, a14, a15, a16, a17, a30⟩ := hlv
    unfold PC.tryBody
    simp [a0, a5, a10, a11, a12, a13, a14, a15, a16, a17, a30]
    rfl
  · rw [gp_dispatch db stack cur input m sid htop]
    have hfindU : db.findUser m = .ok (some u) := by
      simp [GP.Db.findUser, hok, hfind]
    have hlog : db.log m "menu" = .ok { db with logs := db.logs ++ [⟨m, "menu"⟩] } := by
      simp [GP.Db.log, hok]
    unfold GP.tryBody
    simp [hreg, h1, h2, hfindU, hlog]
    rfl

/-- **C6, amended, witness.**  Unknown level 42 in NCSTCS resets to the
home menu with the session continuing; unknown level 3 in GatePlus
terminates with "An error occurred.". -/
theorem c6_amended_witness :
    NC.ussd (fun p => p) ⟨[], true⟩ (some [{ level := 42, message := "m" }]) false "1" =
      .ok ⟨NC.homeMenu, true, .put [{ level := 0, message := NC.homeMenu }], ⟨[], true⟩⟩ ∧
    GP.ussd ⟨[⟨"Ama", "GHA-123456789-01", "0240000001", "verified"⟩], [], [], true⟩
      (some [{ level := 3, message := "m" }]) false "5" "0240000001" "sid" =
      .ok ⟨"An error occurred.", false, .keep,
        ⟨[⟨"Ama", "GHA-123456789-01", "0240000001", "verified"⟩], [],
         [⟨"0240000001", "menu"⟩], true⟩⟩ := by
  constructor
  · exact c6_amended.1 (fun p => p) ⟨[], true⟩ _ { level := 42, message := "m" } "1"
      (by decide) (by decide) rfl (by decide)
  · have h := c6_amended.2.2 ⟨[⟨"Ama", "GHA-123456789-01", "0240000001", "verified"⟩], [], [], true⟩
      [{ level := 3, message := "m" }] { level := 3, message := "m" } "5" "0240000001" "sid"
      ⟨"Ama", "GHA-123456789-01", "0240000001", "verified"⟩
      rfl (by decide) (by decide) (by decide) rfl (by decide)
    simpa using h

/-! ## Claim C7 — terminate-failure on downstream errors -/

/-- **C7, counterexample.**  Not every transition maps a downstream
fault to the terminate-failure policy: in the PCRS variant, Home
(`"0"`) on an authenticated session resolves the user with its own
local try/catch, so when the repository raises the handler *continues*
the session with a generic personalized menu and *writes* a fresh
stack — no session delete, no "temporarily unavailable" message,
`continueSession = true`. -/
theorem c7_counterexample :
    PC.ussd (fun p => p)
      ⟨[⟨0, "ada", "h", "courier", some "Ada", some "+233240000001", none, none, none⟩], false⟩
      (some [{ level := 0, message := "x", loggedIn := true, userRef := some 0 }])
      false "0" "+233240000001" =
      .ok ⟨"Hi Courier\n1. View My Details\n2. Lookup Courier\n3. Cancel", true,
           .put [{ level := 0,
                   message := "Hi Courier\n1. View My Details\n2. Lookup Courier\n3. Cancel",
                   loggedIn := true, userRef := some 0 }],
           ⟨[⟨0, "ada", "h", "courier", some "Ada", some "+233240000001", none, none, none⟩], false⟩⟩ ∧
    "Hi Courier\n1. View My Details\n2. Lookup Courier\n3. Cancel" ≠
      "Service temporarily unavailable. Try later." :=
  ⟨rfl, by decide⟩

/-- **C7, amended.**  Downstream faults raised inside the main level
dispatch (the `try` around the level switch) are mapped to
terminate-failure: session deleted, fixed "Service temporarily
unavailable. Try later." message, `continueSession = false`, database
unchanged — shown for the NCSTCS username step (the repository
uniqueness read raises) and for the GatePlus existing-user dispatch
(the identity read raises).  Faults in branches with local handlers
(PCRS start / Home / View-details identity reads, the create inside
the final registration step) are handled locally instead, and a fault
in the GatePlus new-session branch escapes the handler uncaught. -/
theorem c7_amended :
    (∀ (hash : String → String) (db : NC.Db) (stack : List NC.State)
      (cur : NC.State) (input : String), input ≠ "0" → input ≠ "9" →
      stack.getLast? = some cur → cur.level = 11 →
      usernameOk (jsTrim input) = true → db.ok = false →
      NC.ussd hash db (some stack) false input =
        .ok ⟨"Service temporarily unavailable. Try later.", false, .del, db⟩) ∧
    (∀ (db : GP.Db) (stack : List GP.State) (cur : GP.State)
      (input msisdn sessionID : String),
      stack.getLast? = some cur → cur.level = 1 → db.ok = false →
      GP.ussd db (some stack) false input msisdn sessionID =
        .ok ⟨"Service temporarily unavailable. Try later.", false, .del, db⟩) ∧
    (∀ (db : GP.Db) (userData msisdn sessionID : String), db.ok = false →
      GP.ussd db none true userData msisdn sessionID = .error ()) := by
  refine ⟨fun hash db stack cur input h0 h9 htop hlv husr hok => ?_,
    fun db stack cur input m sid htop hlv hok => ?_,
    fun db u m sid hok => ?_⟩
  · rw [nc_dispatch hash db stack cur input h0 h9 htop]
    unfold NC.tryBody
    have hf : db.findByUsername (jsTrim input) = .error () := by
      simp [NC.Db.findByUsername, hok]
    simp [hlv, husr, hf, Bind.bind, Except.bind]
  · rw [gp_dispatch db stack cur input m sid htop]
    unfold GP.tryBody
    have hf : db.findUser m = .error () := by simp [GP.Db.findUser, hok]
    simp [hlv, hf, Bind.bind, Except.bind]
  · unfold GP.ussd
    have hf : db.findUser m = .error () := by simp [GP.Db.findUser, hok]
    simp [hf]

/-- **C7, amended, witness.**  Concrete instances of the three amended
behaviours, with the repository down (`ok = false`). -/
theorem c7_amended_witness :
    NC.ussd (fun p => p) ⟨[], false⟩
      (some [{ level := 0, message := NC.homeMenu },
             { level := 10, message := "Enter Full Name:" },
             { level := 11, message := "Choose a Username:", name := some "Ama" }]) false "ama99" =
      .ok ⟨"Service temporarily unavailable. Try later.", false, .del, ⟨[], false⟩⟩ ∧
    GP.ussd ⟨[], [], [], false⟩ (some [{ level := 1, message := "menu" }]) false "1" "0240000001" "sid" =
      .ok ⟨"Service temporarily unavailable. Try later.", false, .del, ⟨[], [], [], false⟩⟩ ∧
    GP.ussd ⟨[], [], [], false⟩ none true "" "0240000001" "sid" = .error () := by
  refine ⟨?_, ?_, ?_⟩
  · exact c7_amended.1 (fun p => p) ⟨[], false⟩ _
      { level := 11, message := "Choose a Username:", name := some "Ama" } "ama99"
      (by decide) (by decide) rfl rfl (by decide) rfl
  · exact c7_amended.2.1 ⟨[], [], [], false⟩ _ { level := 1, message := "menu" }
      "1" "0240000001" "sid" rfl rfl rfl
  · exact c7_amended.2.2 ⟨[], [], [], false⟩ "" "0240000001" "sid" rfl

/-! ## Claim C10 — confirm-password mismatch pops to the password level -/

/-- **C10.**  At the confirm-password step (NCSTCS level 14, PCRS
level 15), an input differing from the stored password pops the
confirm entry — depth decreases by exactly one — and replaces the
message of the entry now on top (the password entry in the flow-built
stack) with the mismatch prompt; the session continues and the
database is untouched (the theorem holds for any `db.ok`, so no
repository call is involved). -/
theorem c10_confirm_mismatch :
    (∀ (hash : String → String) (db : NC.Db) (r : List NC.State) (p cur : NC.State)
      (input : String), input ≠ "0" → input ≠ "9" →
      cur.level = 14 → cur.password ≠ some (jsTrim input) →
      NC.ussd hash db (some (r ++ [p, cur])) false input =
        .ok ⟨"Passwords do not match. Create Password:", true,
             .put (r ++ [{ p with message := "Passwords do not match. Create Password:" }]), db⟩) ∧
    (∀ (hash : String → String) (db : PC.Db) (r : List PC.State) (p cur : PC.State)
      (input msisdn : String), input ≠ "0" → input ≠ "9" →
      cur.level = 15 → cur.password ≠ some (jsTrim input) →
      PC.ussd hash db (some (r ++ [p, cur])) false input msisdn =
        .ok ⟨"Passwords do not match. Create Password:", true,
             .put (r ++ [{ p with message := "Passwords do not match. Create Password:" }]), db⟩) := by
  constructor
  · intro hash db r p cur input h0 h9 hlv hpw
    have htop : (r ++ [p, cur]).getLast? = some cur := by
      rw [show r ++ [p, cur] = (r ++ [p]) ++ [cur] by simp]
      exact List.getLast?_concat _
    rw [nc_dispatch hash db _ cur input h0 h9 htop]
    unfold NC.tryBody
    have hd1 : (r ++ [p, cur]).dropLast = r ++ [p] := by
      rw [show r ++ [p, cur] = (r ++ [p]) ++ [cur] by simp]
      exact List.dropLast_concat
    simp [hlv, hpw, hd1, List.getLast?_concat, List.dropLast_concat]
    rfl
  · intro hash db r p cur input m h0 h9 hlv hpw
    have htop : (r ++ [p, cur]).getLast? = some cur := by
      rw [show r ++ [p, cur] = (r ++ [p]) ++ [cur] by simp]
      exact List.getLast?_concat _
    rw [pc_dispatch hash db _ cur input m h0 h9 htop]
    unfold PC.tryBody
    have hd1 : (r ++ [p, cur]).dropLast = r ++ [p] := by
      rw [show r ++ [p, cur] = (r ++ [p]) ++ [cur] by simp]
      exact List.dropLast_concat
    simp [hlv, hpw, hd1, List.getLast?_concat, List.dropLast_concat]
    rfl

/-- **C10, witness.**  A concrete NCSTCS depth-6 stack at the confirm
step with a mismatching confirmation: depth drops to 5 and the
password entry's message becomes the mismatch prompt. -/
theorem c10_confirm_mismatch_witness :
    NC.ussd (fun p => p) ⟨[], true⟩
      (some [{ level := 0, message := NC.homeMenu },
             { level := 10, message := "Enter Full Name:" },
             { level := 11, message := "Choose a Username:", name := some "Ama" },
             { level := 12, message := "Enter Email:", name := some "Ama", username := some "ama99" },
             { level := 13, message := "Create Password:", name := some "Ama",
               username := some "ama99", email := some "ama@x.com" },
             { level := 14, message := "Confirm Password:", name := some "Ama",
               username := some "ama99", email := some "ama@x.com", password := some "secret1" }])
      false "secret2" =
      .ok ⟨"Passwords do not match. Create Password:", true,
           .put [{ level := 0, message := NC.homeMenu },
                 { level := 10, message := "Enter Full Name:" },
                 { level := 11, message := "Choose a Username:", name := some "Ama" },
                 { level := 12, message := "Enter Email:", name := some "Ama", username := some "ama99" },
                 { level := 13, message := "Passwords do not match. Create Password:", name := some "Ama",
                   username := some "ama99", email := some "ama@x.com" }], ⟨[], true⟩⟩ := by
  have h := c10_confirm_mismatch.1 (fun p => p) ⟨[], true⟩
    [{ level := 0, message := NC.homeMenu },
     { level := 10, message := "Enter Full Name:" },
     { level := 11, message := "Choose a Username:", name := some "Ama" },
     { level := 12, message := "Enter Email:", name := some "Ama", username := some "ama99" }]
    { level := 13, message := "Create Password:", name := some "Ama",
      username := some "ama99", email := some "ama@x.com" }
    { level := 14, message := "Confirm Password:", name := some "Ama",
      username := some "ama99", email := some "ama@x.com", password := some "secret1" }
    "secret2" (by decide) (by decide) rfl (by decide)
  simpa using h

/-! ## Claim C9 — the loan-amount step (GatePlus level 2) -/

/-- **C9.**  At the loan-amount step (GatePlus level 2, reached by a
registered subscriber): an input that does not parse to a number, or
parses outside the inclusive range 10–1000, is a Retry-in-place — the
range-error prompt replaces the top entry's message at the same depth,
the session continues, and no user or loan record is touched (only the
pre-switch activity-log append happens).  An in-range amount creates a
loan record with the pending status (`loan_pending`) and terminates
the session (store deleted, `continueSession = false`). -/
theorem c9_loan_amount :
    (∀ (db : GP.Db) (stack : List GP.State) (cur : GP.State)
      (input msisdn sessionID : String) (u : GP.User),
      stack.getLast? = some cur → cur.level = 2 → db.ok = true →
      db.users.find? (fun v => v.msisdn == msisdn) = some u →
      (parseFloat input = none ∨ ∃ q, parseFloat input = some q ∧ (q < 10 ∨ 1000 < q)) →
      GP.ussd db (some stack) false input msisdn sessionID =
        .ok ⟨"Enter amount between GHS 10 and 1000:", true,
             .put (stack.dropLast ++
               [{ cur with message := "Enter amount between GHS 10 and 1000:" }]),
             { db with logs := db.logs ++ [⟨msisdn, "menu"⟩] }⟩) ∧
    (∀ (db : GP.Db) (stack : List GP.State) (cur : GP.State)
      (input msisdn sessionID : String) (u : GP.User) (q : ℚ),
      stack.getLast? = some cur → cur.level = 2 → db.ok = true →
      db.users.find? (fun v => v.msisdn == msisdn) = some u →
      parseFloat input = some q → 10 ≤ q → q ≤ 1000 →
      GP.ussd db (some stack) false input msisdn sessionID =
        .ok ⟨"Loan request for GHS " ++ toString q
               ++ " received!\nProcessing... Funds will be sent shortly.", false, .del,
             { db with loans := db.loans ++ [⟨msisdn, q, "loan_pending", db.loans.length⟩],
                       logs := db.logs ++ [⟨msisdn, "menu"⟩, ⟨msisdn, "loan_request"⟩] }⟩) := by
  constructor
  · intro db stack cur input m sid u htop hlv hok hfind hbad
    rw [gp_dispatch db stack cur input m sid htop]
    unfold GP.tryBody
    have hfindU : db.findUser m = .ok (some u) := by
      simp [GP.Db.findUser, hok, hfind]
    have hlog : db.log m "menu" = .ok { db with logs := db.logs ++ [⟨m, "menu"⟩] } := by
      simp [GP.Db.log, hok]
    rcases hbad with hparse | ⟨q, hparse, hlt⟩
    · simp [hlv, hfindU, hlog, hparse, Bind.bind, Except.bind]
      rfl
    · simp [hlv, hfindU, hlog, hparse, Bind.bind, Except.bind, hlt]
      rfl
  · intro db stack cur input m sid u q htop hlv hok hfind hparse h10 h1000
    rw [gp_dispatch db stack cur input m sid htop]
    unfold GP.tryBody
    have hfindU : db.findUser m = .ok (some u) := by
      simp [GP.Db.findUser, hok, hfind]
    have hlog : db.log m "menu" = .ok { db with logs := db.logs ++ [⟨m, "menu"⟩] } := by
      simp [GP.Db.log, hok]
    have hnb : ¬(q < 10 ∨ 1000 < q) := by
      push_neg
      exact ⟨h10, h1000⟩
    have hcl : GP.Db.createLoan { db with logs := db.logs ++ [⟨m, "menu"⟩] }
        ⟨m, q, "loan_pending", db.loans.length⟩ =
        .ok { db with loans := db.loans ++ [⟨m, q, "loan_pending", db.loans.length⟩],
                      logs := db.logs ++ [⟨m, "menu"⟩] } := by
      unfold GP.Db.createLoan
      simp [hok, hnb]
    have hlog2 : GP.Db.log { db with loans := db.loans ++ [⟨m, q, "loan_pending", db.loans.length⟩],
                                     logs := db.logs ++ [⟨m, "menu"⟩] } m "loan_request" =
        .ok { db with loans := db.loans ++ [⟨m, q, "loan_pending", db.loans.length⟩],
                      logs := db.logs ++ [⟨m, "menu"⟩, ⟨m, "loan_request"⟩] } := by
      simp [GP.Db.log, hok]
    simp [hlv, hfindU, hlog, hparse, hnb, hcl, hlog2, Bind.bind, Except.bind]
    rfl

/-- **C9, witness.**  From a registered, verified subscriber at the
amount prompt: input `"5"` (below the bound) is a Retry-in-place with
the range-error message at unchanged depth, and input `"500"` creates
a `loan_pending` loan and ends the session.  The last conjunct
evaluates the parsed amount: `parseFloat "500"` is the rational 500. -/
theorem c9_loan_amount_witness :
    GP.ussd ⟨[⟨"Ama", "GHA-123456789-01", "0240000001", "verified"⟩], [], [], true⟩
      (some [{ level := 1, message := "menu" }, { level := 2, message := "Enter loan amount (GHS 10 - 1000):" }])
      false "5" "0240000001" "sid" =
      .ok ⟨"Enter amount between GHS 10 and 1000:", true,
           .put [{ level := 1, message := "menu" },
                 { level := 2, message := "Enter amount between GHS 10 and 1000:" }],
           ⟨[⟨"Ama", "GHA-123456789-01", "0240000001", "verified"⟩], [],
            [⟨"0240000001", "menu"⟩], true⟩⟩ ∧
    GP.ussd ⟨[⟨"Ama", "GHA-123456789-01", "0240000001", "verified"⟩], [], [], true⟩
      (some [{ level := 1, message := "menu" }, { level := 2, message := "Enter loan amount (GHS 10 - 1000):" }])
      false "500" "0240000001" "sid" =
      .ok ⟨"Loan request for GHS " ++ toString (ratOfParts false 500 0 0)
             ++ " received!\nProcessing... Funds will be sent shortly.", false, .del,
           ⟨[⟨"Ama", "GHA-123456789-01", "0240000001", "verified"⟩],
            [⟨"0240000001", ratOfParts false 500 0 0, "loan_pending", 0⟩],
            [⟨"0240000001", "menu"⟩, ⟨"0240000001", "loan_request"⟩], true⟩⟩ ∧
    ratOfParts false 500 0 0 = 500 := by
  refine ⟨?_, ?_, by norm_num [ratOfParts]⟩
  · have h := c9_loan_amount.1 ⟨[⟨"Ama", "GHA-123456789-01", "0240000001", "verified"⟩], [], [], true⟩
      [{ level := 1, message := "menu" }, { level := 2, message := "Enter loan amount (GHS 10 - 1000):" }]
      { level := 2, message := "Enter loan amount (GHS 10 - 1000):" } "5" "0240000001" "sid"
      ⟨"Ama", "GHA-123456789-01", "0240000001", "verified"⟩ rfl rfl rfl (by decide)
      (Or.inr ⟨ratOfParts false 5 0 0, rfl, Or.inl (by norm_num [ratOfParts])⟩)
    simpa using h
  · have h := c9_loan_amount.2 ⟨[⟨"Ama", "GHA-123456789-01", "0240000001", "verified"⟩], [], [], true⟩
      [{ level := 1, message := "menu" }, { level := 2, message := "Enter loan amount (GHS 10 - 1000):" }]
      { level := 2, message := "Enter loan amount (GHS 10 - 1000):" } "500" "0240000001" "sid"
      ⟨"Ama", "GHA-123456789-01", "0240000001", "verified"⟩ (ratOfParts false 500 0 0)
      rfl rfl rfl (by decide) rfl (by norm_num [ratOfParts]) (by norm_num [ratOfParts])
    simpa using h

/-! ## Claim C5 — Retry-in-place on capture failures -/

/-- `input` fails the validator or the uniqueness check of the NCSTCS
field-capture step at `cur.level` (a uniqueness conflict presupposes
that the format check passed and that the repository read succeeds,
`db.ok = true`). -/
def ncCaptureFails (db : NC.Db) (cur : NC.State) (input : String) : Prop :=
  (cur.level = 10 ∧ (jsTrim input = "" ∨ (jsTrim input).length < 3 ∨
    (jsTrim input).toList.any jsDigit = true)) ∨
  (cur.level = 11 ∧ (usernameOk (jsTrim input) = false ∨
    (usernameOk (jsTrim input) = true ∧ db.ok = true ∧
      (db.users.find? (fun u => u.username == jsTrim input)).isSome = true))) ∨
  (cur.level = 12 ∧ (isValidEmail (jsTrim input) = false ∨
    (isValidEmail (jsTrim input) = true ∧ db.ok = true ∧
      (db.users.find? (fun u => u.email == some (jsTrim input))).isSome = true))) ∨
  (cur.level = 13 ∧ (jsTrim input).length < 6) ∨
  (cur.level = 15 ∧ (isValidDVLA (jsToUpper (jsTrim input)) = false ∨
    (isValidDVLA (jsToUpper (jsTrim input)) = true ∧ db.ok = true ∧
      (db.users.find? (fun u =>
        u.dvlaNumber == some (jsToUpper (jsTrim input)))).isSome = true))) ∨
  (cur.level = 16 ∧ (isValidGhanaCard (jsToUpper (jsTrim input)) = false ∨
    (isValidGhanaCard (jsToUpper (jsTrim input)) = true ∧ db.ok = true ∧
      (db.users.find? (fun u =>
        u.ghanaCardNumber == some (jsToUpper (jsTrim input)))).isSome = true)))

/-- `input` fails the validator or the uniqueness check of the PCRS
field-capture step at `cur.level`. -/
def pcCaptureFails (db : PC.Db) (cur : PC.State) (input : String) : Prop :=
  (cur.level = 10 ∧ (jsTrim input = "" ∨ (jsTrim input).length < 3 ∨
    (jsTrim input).toList.any jsDigit = true)) ∨
  (cur.level = 11 ∧ (usernameOk (jsTrim input) = false ∨
    (usernameOk (jsTrim input) = true ∧ db.ok = true ∧
      (db.users.find? (fun u => u.username == jsTrim input)).isSome = true))) ∨
  (cur.level = 12 ∧ (isValidPhone (jsTrim input) = false ∨
    (isValidPhone (jsTrim input) = true ∧ db.ok = true ∧
      (db.users.find? (fun u =>
        u.phone == some (normalizePhone (jsTrim input)))).isSome = true))) ∨
  (cur.level = 13 ∧ (isValidEmail (jsTrim input) = false ∨
    (isValidEmail (jsTrim input) = true ∧ db.ok = true ∧
      (db.users.find? (fun u => u.email == some (jsTrim input))).isSome = true))) ∨
  (cur.level = 14 ∧ (jsTrim input).length < 6) ∨
  (cur.level = 16 ∧ (isValidDVLA (jsToUpper (jsTrim input)) = false ∨
    (isValidDVLA (jsToUpper (jsTrim input)) = true ∧ db.ok = true ∧
      (db.users.find? (fun u =>
        u.dvlaNumber == some (jsToUpper (jsTrim input)))).isSome = true))) ∨
  (cur.level = 17 ∧ (isValidGhanaCard (jsToUpper (jsTrim input)) = false ∨
    (isValidGhanaCard (jsToUpper (jsTrim input)) = true ∧ db.ok = true ∧
      (db.users.find? (fun u =>
        u.ghanaCardNumber == some (jsToUpper (jsTrim input)))).isSome = true)))

/-- **C5, counterexample.**  The GatePlus full-name step (level 10) on a
failing input responds with the error prompt and keeps the depth, but
does *not* replace the top entry's stored message: the session store
is left untouched (`StoreEff.keep`), old prompt and all, instead of
being rewritten with the error-annotated prompt the claim requires. -/
theorem c5_counterexample :
    GP.ussd ⟨[], [], [], true⟩
      (some [{ level := 10,
               message := "Welcome to GatePlus!\nRegister for verification to access loans.\nEnter your Full Name:",
               sessionID := some "sid", msisdn := some "0240000001" }])
      false "x" "0240000001" "sid" =
      .ok ⟨"Please enter a valid name (no numbers).", true, .keep, ⟨[], [], [], true⟩⟩ ∧
    (StoreEff.keep : StoreEff (List GP.State)) ≠
      .put [{ level := 10, message := "Please enter a valid name (no numbers).",
              sessionID := some "sid", msisdn := some "0240000001" }] :=
  ⟨rfl, by simp⟩

/-- **C5, amended.**  Retry-in-place holds for every NCSTCS and PCRS
field-capture step: on a validator or uniqueness failure the handler
replaces only the top entry's message (same level, same depth, same
tail), continues the session, and leaves the database untouched.  In
the GatePlus variant the card step behaves the same way, but the
full-name step on a failing input stores nothing at all (the session
entry keeps its old prompt), and its existing-user steps log an
activity entry before dispatch (see C9 for the amount step). -/
theorem c5_amended :
    (∀ (hash : String → String) (db : NC.Db) (stack : List NC.State)
      (cur : NC.State) (input : String), input ≠ "0" → input ≠ "9" →
      stack.getLast? = some cur → ncCaptureFails db cur input →
      ∃ msg, NC.ussd hash db (some stack) false input =
        .ok ⟨msg, true, .put (stack.dropLast ++ [{ cur with message := msg }]), db⟩) ∧
    (∀ (hash : String → String) (db : PC.Db) (stack : List PC.State)
      (cur : PC.State) (input msisdn : String), input ≠ "0" → input ≠ "9" →
      stack.getLast? = some cur → pcCaptureFails db cur input →
      ∃ msg, PC.ussd hash db (some stack) false input msisdn =
        .ok ⟨msg, true, .put (stack.dropLast ++ [{ cur with message := msg }]), db⟩) ∧
    (∀ (db : GP.Db) (stack : List GP.State) (cur : GP.State) (input msisdn sessionID : String),
      stack.getLast? = some cur → cur.level = 11 →
      isValidGhanaCard (jsToUpper (jsTrim input)) = false →
      GP.ussd db (some stack) false input msisdn sessionID =
        .ok ⟨"Invalid format. Use GHA-XXXXXXXXX-XX:", true,
             .put (stack.dropLast ++
               [{ cur with message := "Invalid format. Use GHA-XXXXXXXXX-XX:" }]), db⟩) ∧
    (∀ (db : GP.Db) (stack : List GP.State) (cur : GP.State) (input msisdn sessionID : String),
      stack.getLast? = some cur → cur.level = 10 →
      ((jsTrim input).length < 2 ∨ (jsTrim input).toList.any jsDigit = true) →
      GP.ussd db (some stack) false input msisdn sessionID =
        .ok ⟨"Please enter a valid name (no numbers).", true, .keep, db⟩) := by
  refine ⟨fun hash db stack cur input h0 h9 htop hfail => ?_,
    fun hash db stack cur input m h0 h9 htop hfail => ?_,
    fun db stack cur input m sid htop hlv hcard => ?_,
    fun db stack cur input m sid htop hlv hname => ?_⟩
  · rw [nc_dispatch hash db stack cur input h0 h9 htop]
    unfold NC.tryBody
    rcases hfail with ⟨hlv, hc⟩ | ⟨hlv, hc⟩ | ⟨hlv, hc⟩ | ⟨hlv, hc⟩ | ⟨hlv, hc⟩ | ⟨hlv, hc⟩
    · refine ⟨"Invalid name. Enter Full Name:", ?_⟩
      have hc2 : jsTrim input = "" ∨ (jsTrim input).length < 3 ∨
          ∃ x ∈ (jsTrim input).data, jsDigit x = true := by simpa using hc
      simp [hlv, NC.retry, hc2] <;> rfl
    · rcases hc with hv | ⟨hv, hok, hex⟩
      · exact ⟨"Invalid username. Try again:", by simp [hlv, hv, NC.retry] <;> rfl⟩
      · obtain ⟨u, hu⟩ := Option.isSome_iff_exists.1 hex
        have hf : db.findByUsername (jsTrim input) = .ok (some u) := by
          simp [NC.Db.findByUsername, hok, hu]
        exact ⟨"Username taken. Enter a different Username:",
          by simp [hlv, hv, hf, Bind.bind, Except.bind, NC.retry] <;> rfl⟩
    · rcases hc with hv | ⟨hv, hok, hex⟩
      · exact ⟨"Invalid email. Enter Email:", by simp [hlv, hv, NC.retry] <;> rfl⟩
      · obtain ⟨u, hu⟩ := Option.isSome_iff_exists.1 hex
        have hf : db.findByEmail (jsTrim input) = .ok (some u) := by
          simp [NC.Db.findByEmail, hok, hu]
        exact ⟨"Email already in use. Enter a different Email:",
          by simp [hlv, hv, hf, Bind.bind, Except.bind, NC.retry] <;> rfl⟩
    · exact ⟨"Password too short (min 6). Create Password:",
        by simp [hlv, hc, NC.retry] <;> rfl⟩
    · rcases hc with hv | ⟨hv, hok, hex⟩
      · exact ⟨"Invalid DVLA number. Enter DVLA License Number:",
          by simp [hlv, hv, NC.retry] <;> rfl⟩
      · obtain ⟨u, hu⟩ := Option.isSome_iff_exists.1 hex
        have hf : db.findByDvla (jsToUpper (jsTrim input)) = .ok (some u) := by
          simp [NC.Db.findByDvla, hok, hu]
        exact ⟨"DVLA already registered. Enter a different DVLA License Number:",
          by simp [hlv, hv, hf, Bind.bind, Except.bind, NC.retry] <;> rfl⟩
    · rcases hc with hv | ⟨hv, hok, hex⟩
      · exact ⟨"Invalid format. Use GHA-XXXXXXXXX-XX:", by simp [hlv, hv, NC.retry] <;> rfl⟩
      · obtain ⟨u, hu⟩ := Option.isSome_iff_exists.1 hex
        have hf : db.findByCard (jsToUpper (jsTrim input)) = .ok (some u) := by
          simp [NC.Db.findByCard, hok, hu]
        exact ⟨"Ghana Card already registered. Enter a different Ghana Card:",
          by simp [hlv, hv, hf, Bind.bind, Except.bind, NC.retry] <;> rfl⟩
  · rw [pc_dispatch hash db stack cur input m h0 h9 htop]
    unfold PC.tryBody
    rcases hfail with ⟨hlv, hc⟩ | ⟨hlv, hc⟩ | ⟨hlv, hc⟩ | ⟨hlv, hc⟩ | ⟨hlv, hc⟩ | ⟨hlv, hc⟩ | ⟨hlv, hc⟩
    · refine ⟨"Invalid name. Enter Full Name:", ?_⟩
      have hc2 : jsTrim input = "" ∨ (jsTrim input).length < 3 ∨
          ∃ x ∈ (jsTrim input).data, jsDigit x = true := by simpa using hc
      simp [hlv, PC.retry, hc2] <;> rfl
    · rcases hc with hv | ⟨hv, hok, hex⟩
      · exact ⟨"Invalid username. Try again:", by simp [hlv, hv, PC.retry] <;> rfl⟩
      · obtain ⟨u, hu⟩ := Option.isSome_iff_exists.1 hex
        have hf : db.findByUsername (jsTrim input) = .ok (some u) := by
          simp [PC.Db.findByUsername, hok, hu]
        exact ⟨"Username taken. Enter a different Username:",
          by simp [hlv, hv, hf, Bind.bind, Except.bind, PC.retry] <;> rfl⟩
    · rcases hc with hv | ⟨hv, hok, hex⟩
      · exact ⟨"Invalid phone. Enter Phone Number (e.g., 024XXXXXXX):",
          by simp [hlv, hv, PC.retry] <;> rfl⟩
      · obtain ⟨u, hu⟩ := Option.isSome_iff_exists.1 hex
        have hf : db.findByPhone (normalizePhone (jsTrim input)) = .ok (some u) := by
          simp [PC.Db.findByPhone, hok, hu]
        exact ⟨"Phone already registered. Enter a different Phone Number:",
          by simp [hlv, hv, hf, Bind.bind, Except.bind, PC.retry] <;> rfl⟩
    · rcases hc with hv | ⟨hv, hok, hex⟩
      · exact ⟨"Invalid email. Enter Email:", by simp [hlv, hv, PC.retry] <;> rfl⟩
      · obtain ⟨u, hu⟩ := Option.isSome_iff_exists.1 hex
        have hf : db.findByEmail (jsTrim input) = .ok (some u) := by
          simp [PC.Db.findByEmail, hok, hu]
        exact ⟨"Email already in use. Enter a different Email:",
          by simp [hlv, hv, hf, Bind.bind, Except.bind, PC.retry] <;> rfl⟩
    · exact ⟨"Password too short (min 6). Create Password:",
        by simp [hlv, hc, PC.retry] <;> rfl⟩
    · rcases hc with hv | ⟨hv, hok, hex⟩
      · exact ⟨"Invalid DVLA number. Enter DVLA License Number:",
          by simp [hlv, hv, PC.retry] <;> rfl⟩
      · obtain ⟨u, hu⟩ := Option.isSome_iff_exists.1 hex
        have hf : db.findByDvla (jsToUpper (jsTrim input)) = .ok (some u) := by
          simp [PC.Db.findByDvla, hok, hu]
        exact ⟨"DVLA already registered. Enter a different DVLA License Number:",
          by simp [hlv, hv, hf, Bind.bind, Except.bind, PC.retry] <;> rfl⟩
    · rcases hc with hv | ⟨hv, hok, hex⟩
      · exact ⟨"Invalid format. Use GHA-XXXXXXXXX-XX:", by simp [hlv, hv, PC.retry] <;> rfl⟩
      · obtain ⟨u, hu⟩ := Option.isSome_iff_exists.1 hex
        have hf : db.findByCard (jsToUpper (jsTrim input)) = .ok (some u) := by
          simp [PC.Db.findByCard, hok, hu]
        exact ⟨"Ghana Card already registered. Enter a different Ghana Card:",
          by simp [hlv, hv, hf, Bind.bind, Except.bind, PC.retry] <;> rfl⟩
  · rw [gp_dispatch db stack cur input m sid htop]
    unfold GP.tryBody
    simp [hlv, hcard] <;> rfl
  · rw [gp_dispatch db stack cur input m sid htop]
    unfold GP.tryBody
    have hname2 : (jsTrim input).length < 2 ∨ ∃ x ∈ (jsTrim input).data, jsDigit x = true := by
      simpa using hname
    simp [hlv, hname2] <;> rfl

/-- **C5, amended, witness.**  An NCSTCS username already in the
repository at the username step yields a Retry-in-place (depth 3 stays
3, only the top message changes, the database is unchanged), and a
failing GatePlus full-name input leaves the store untouched. -/
theorem c5_amended_witness :
    (∃ msg, NC.ussd (fun p => p)
      ⟨[⟨"bob", "h", "courier", some "Bob", some "bob@x.com", some "DVLA9", some "GHA-999999999-99"⟩], true⟩
      (some [{ level := 0, message := NC.homeMenu },
             { level := 10, message := "Enter Full Name:" },
             { level := 11, message := "Choose a Username:", name := some "Ama" }]) false "bob" =
      .ok ⟨msg, true,
           .put [{ level := 0, message := NC.homeMenu },
                 { level := 10, message := "Enter Full Name:" },
                 { level := 11, message := msg, name := some "Ama" }],
           ⟨[⟨"bob", "h", "courier", some "Bob", some "bob@x.com", some "DVLA9", some "GHA-999999999-99"⟩], true⟩⟩) ∧
    GP.ussd ⟨[], [], [], true⟩
      (some [{ level := 10, message := "w", sessionID := some "sid", msisdn := some "m" }])
      false "A1" "m" "sid" =
      .ok ⟨"Please enter a valid name (no numbers).", true, .keep, ⟨[], [], [], true⟩⟩ := by
  constructor
  · have h := c5_amended.1 (fun p => p)
      ⟨[⟨"bob", "h", "courier", some "Bob", some "bob@x.com", some "DVLA9", some "GHA-999999999-99"⟩], true⟩
      [{ level := 0, message := NC.homeMenu },
       { level := 10, message := "Enter Full Name:" },
       { level := 11, message := "Choose a Username:", name := some "Ama" }]
      { level := 11, message := "Choose a Username:", name := some "Ama" } "bob"
      (by decide) (by decide) rfl
      (Or.inr (Or.inl ⟨rfl, Or.inr ⟨by decide, rfl, by decide⟩⟩))
    obtain ⟨msg, hmsg⟩ := h
    exact ⟨msg, by simpa using hmsg⟩
  · exact c5_amended.2.2.2 ⟨[], [], [], true⟩ _
      { level := 10, message := "w", sessionID := some "sid", msisdn := some "m" }
      "A1" "m" "sid" rfl rfl (Or.inr (by decide))

/-! ## Claim C1 — uniqueness re-check at the final creation step -/

/-- The GatePlus registration welcome prompt. -/
def c1welcome : String :=
  "Welcome to GatePlus!\nRegister for verification to access loans.\nEnter your Full Name:"

/-- The GatePlus card prompt. -/
def c1prompt : String := "Enter Ghana Card (e.g., GHA-123456789-01):"

/-- The GatePlus registration success message (the level-11 step looks
up `fullName` on the level-10 entry, which never carries it, so every
registration stores the name `"Unknown"`). -/
def c1thanks : String := "Thank you, Unknown!\nVerification pending. You'll be notified."

/-- **C1, counterexample.**  Two complete GatePlus registration runs —
each a genuine new-session / full-name / identity-card sequence, under
different subscriber numbers — submit the *same* identity-card number
`GHA-123456789-01` and **both** creates succeed: the final step checks
only whether the `msisdn` is already registered, the schema has no
unique constraint on `ghanaCard`, and afterwards the repository holds
two identity records with the same card. -/
theorem c1_counterexample :
    -- run A, subscriber 0240000001
    GP.ussd ⟨[], [], [], true⟩ none true "" "0240000001" "sid1" =
      .ok ⟨c1welcome, true,
        .put [{ level := 10, message := c1welcome, sessionID := some "sid1",
                msisdn := some "0240000001" }],
        ⟨[], [], [⟨"0240000001", "session_start"⟩], true⟩⟩ ∧
    GP.ussd ⟨[], [], [⟨"0240000001", "session_start"⟩], true⟩
      (some [{ level := 10, message := c1welcome, sessionID := some "sid1",
               msisdn := some "0240000001" }]) false "Ama Owusu" "0240000001" "sid1" =
      .ok ⟨c1prompt, true,
        .put [{ level := 10, message := c1welcome, sessionID := some "sid1",
                msisdn := some "0240000001" },
              { level := 11, message := c1prompt, fullName := some "Ama Owusu" }],
        ⟨[], [], [⟨"0240000001", "session_start"⟩], true⟩⟩ ∧
    GP.ussd ⟨[], [], [⟨"0240000001", "session_start"⟩], true⟩
      (some [{ level := 10, message := c1welcome, sessionID := some "sid1",
               msisdn := some "0240000001" },
             { level := 11, message := c1prompt, fullName := some "Ama Owusu" }])
      false "GHA-123456789-01" "0240000001" "sid1" =
      .ok ⟨c1thanks, false, .del,
        ⟨[⟨"Unknown", "GHA-123456789-01", "0240000001", "pending_verification"⟩], [],
         [⟨"0240000001", "session_start"⟩, ⟨"0240000001", "register"⟩], true⟩⟩ ∧
    -- run B, subscriber 0240000002, same identity-card number
    GP.ussd ⟨[⟨"Unknown", "GHA-123456789-01", "0240000001", "pending_verification"⟩], [],
             [⟨"0240000001", "session_start"⟩, ⟨"0240000001", "register"⟩], true⟩
      none true "" "0240000002" "sid2" =
      .ok ⟨c1welcome, true,
        .put [{ level := 10, message := c1welcome, sessionID := some "sid2",
                msisdn := some "0240000002" }],
        ⟨[⟨"Unknown", "GHA-123456789-01", "0240000001", "pending_verification"⟩], [],
         [⟨"0240000001", "session_start"⟩, ⟨"0240000001", "register"⟩,
          ⟨"0240000002", "session_start"⟩], true⟩⟩ ∧
    GP.ussd ⟨[⟨"Unknown", "GHA-123456789-01", "0240000001", "pending_verification"⟩], [],
             [⟨"0240000001", "session_start"⟩, ⟨"0240000001", "register"⟩,
              ⟨"0240000002", "session_start"⟩], true⟩
      (some [{ level := 10, message := c1welcome, sessionID := some "sid2",
               msisdn := some "0240000002" }]) false "Kwame Mensah" "0240000002" "sid2" =
      .ok ⟨c1prompt, true,
        .put [{ level := 10, message := c1welcome, sessionID := some "sid2",
                msisdn := some "0240000002" },
              { level := 11, message := c1prompt, fullName := some "Kwame Mensah" }],
        ⟨[⟨"Unknown", "GHA-123456789-01", "0240000001", "pending_verification"⟩], [],
         [⟨"0240000001", "session_start"⟩, ⟨"0240000001", "register"⟩,
          ⟨"0240000002", "session_start"⟩], true⟩⟩ ∧
    GP.ussd ⟨[⟨"Unknown", "GHA-123456789-01", "0240000001", "pending_verification"⟩], [],
             [⟨"0240000001", "session_start"⟩, ⟨"0240000001", "register"⟩,
              ⟨"0240000002", "session_start"⟩], true⟩
      (some [{ level := 10, message := c1welcome, sessionID := some "sid2",
               msisdn := some "0240000002" },
             { level := 11, message := c1prompt, fullName := some "Kwame Mensah" }])
      false "GHA-123456789-01" "0240000002" "sid2" =
      .ok ⟨c1thanks, false, .del,
        ⟨[⟨"Unknown", "GHA-123456789-01", "0240000001", "pending_verification"⟩,
          ⟨"Unknown", "GHA-123456789-01", "0240000002", "pending_verification"⟩], [],
         [⟨"0240000001", "session_start"⟩, ⟨"0240000001", "register"⟩,
          ⟨"0240000002", "session_start"⟩, ⟨"0240000002", "register"⟩], true⟩⟩ ∧
    -- both creates succeeded: two records share the identity-card number
    (([⟨"Unknown", "GHA-123456789-01", "0240000001", "pending_verification"⟩,
       ⟨"Unknown", "GHA-123456789-01", "0240000002", "pending_verification"⟩] : List GP.User).filter
      (fun u => u.ghanaCard == "GHA-123456789-01")).length = 2 := by
  refine ⟨rfl, rfl, rfl, rfl, rfl, rfl, by decide⟩

/-- **C1, amended.**  At the final creation step the engine re-checks
uniqueness *only* for the identity-card number captured at that step.
(i) In NCSTCS, a card already registered yields a Retry-in-place — the
one genuine re-check.  (ii) Earlier-captured unique fields are *not*
re-checked: with a username claimed meanwhile, the NCSTCS final step
still issues the create, which the repository's unique index rejects,
and the engine answers the terminate-failure "Registration failed. Try
again later." (session deleted, no record written) instead of a
Retry.  (iii) In GatePlus the create succeeds for any fresh `msisdn`
regardless of the submitted identity-card number — there is no card
uniqueness check or constraint at all — so two registration runs
sharing a card value can both succeed (see the counterexample). -/
theorem c1_amended :
    (∀ (hash : String → String) (db : NC.Db) (stack : List NC.State)
      (cur : NC.State) (input : String) (u : NC.User), input ≠ "0" → input ≠ "9" →
      stack.getLast? = some cur → cur.level = 16 →
      isValidGhanaCard (jsToUpper (jsTrim input)) = true → db.ok = true →
      db.users.find? (fun v => v.ghanaCardNumber == some (jsToUpper (jsTrim input))) = some u →
      NC.ussd hash db (some stack) false input =
        .ok ⟨"Ghana Card already registered. Enter a different Ghana Card:", true,
             .put (stack.dropLast ++
               [{ cur with message := "Ghana Card already registered. Enter a different Ghana Card:" }]),
             db⟩) ∧
    (∀ (hash : String → String) (db : NC.Db) (stack : List NC.State)
      (cur : NC.State) (input un pw : String), input ≠ "0" → input ≠ "9" →
      stack.getLast? = some cur → cur.level = 16 →
      isValidGhanaCard (jsToUpper (jsTrim input)) = true → db.ok = true →
      db.users.find? (fun v => v.ghanaCardNumber == some (jsToUpper (jsTrim input))) = none →
      cur.username = some un → cur.password = some pw →
      db.users.any (fun v => v.username == un) = true →
      NC.ussd hash db (some stack) false input =
        .ok ⟨"Registration failed. Try again later.", false, .del, db⟩) ∧
    (∀ (db : GP.Db) (stack : List GP.State) (cur : GP.State) (input msisdn sessionID : String),
      stack.getLast? = some cur → cur.level = 11 →
      isValidGhanaCard (jsToUpper (jsTrim input)) = true →
      ghanaChars (jsToUpper (jsTrim input)).toList = true → db.ok = true →
      db.users.find? (fun v => v.msisdn == msisdn) = none →
      GP.ussd db (some stack) false input msisdn sessionID =
        .ok ⟨"Thank you, "
               ++ jsOr ((stack.find? (fun s => s.level == 10)).bind (·.fullName)) "Unknown"
               ++ "!\nVerification pending. You'll be notified.", false, .del,
             { db with
                users := db.users ++
                  [⟨jsOr ((stack.find? (fun s => s.level == 10)).bind (·.fullName)) "Unknown",
                    jsToUpper (jsTrim input), msisdn, "pending_verification"⟩],
                logs := db.logs ++ [⟨msisdn, "register"⟩] }⟩) := by
  refine ⟨fun hash db stack cur input u h0 h9 htop hlv hcard hok hdup => ?_,
    fun hash db stack cur input un pw h0 h9 htop hlv hcard hok hfresh hun hpw hdup => ?_,
    fun db stack cur input m sid htop hlv hcard hchars hok hfresh => ?_⟩
  · rw [nc_dispatch hash db stack cur input h0 h9 htop]
    unfold NC.tryBody
    have hf : db.findByCard (jsToUpper (jsTrim input)) = .ok (some u) := by
      simp [NC.Db.findByCard, hok, hdup]
    simp [hlv, hcard, hf, Bind.bind, Except.bind, NC.retry]
    rfl
  · rw [nc_dispatch hash db stack cur input h0 h9 htop]
    unfold NC.tryBody
    have hf : db.findByCard (jsToUpper (jsTrim input)) = .ok none := by
      simp [NC.Db.findByCard, hok, hfresh]
    have hcreate : NC.Db.create db (some un) (some (hash pw)) "courier" cur.name
        cur.email cur.dvlaNumber (some (jsToUpper (jsTrim input))) = .error () := by
      unfold NC.Db.create
      simp [hok, hdup]
    simp [hlv, hcard, hf, hun, hpw, hcreate, Bind.bind, Except.bind]
    rfl
  · rw [gp_dispatch db stack cur input m sid htop]
    unfold GP.tryBody
    have hfindU : db.findUser m = .ok none := by
      simp [GP.Db.findUser, hok, hfresh]
    have hmsisdn : db.users.any (fun v => v.msisdn == m) = false := by
      rcases h : db.users.any (fun v => v.msisdn == m) with _ | _
      · rfl
      · obtain ⟨v, hv, hvm⟩ := List.any_eq_true.1 h
        rw [List.find?_eq_none] at hfresh
        exact absurd hvm (by simpa using hfresh v hv)
    have hcreate : GP.Db.createUser db
        ⟨jsOr ((stack.find? (fun s => s.level == 10)).bind (·.fullName)) "Unknown",
         jsToUpper (jsTrim input), m, "pending_verification"⟩ =
        .ok { db with
                users := db.users ++
                  [⟨jsOr ((stack.find? (fun s => s.level == 10)).bind (·.fullName)) "Unknown",
                    jsToUpper (jsTrim input), m, "pending_verification"⟩] } := by
      unfold GP.Db.createUser
      have hchars2 : ghanaChars (jsToUpper (jsTrim input)).data = true := hchars
      simp [hok, hmsisdn, hchars2]
    have hlog : GP.Db.log
        { db with
            users := db.users ++
              [⟨jsOr ((stack.find? (fun s => s.level == 10)).bind (·.fullName)) "Unknown",
                jsToUpper (jsTrim input), m, "pending_verification"⟩] } m "register" =
        .ok { db with
                users := db.users ++
                  [⟨jsOr ((stack.find? (fun s => s.level == 10)).bind (·.fullName)) "Unknown",
                    jsToUpper (jsTrim input), m, "pending_verification"⟩],
                logs := db.logs ++ [⟨m, "register"⟩] } := by
      simp [GP.Db.log, hok]
    simp [hlv, hcard, hfindU, hcreate, hlog, Bind.bind, Except.bind]
    rfl

/-- **C1, amended, witness.**  (i) A registered card at the NCSTCS final
step is retried in place; (ii) a username taken meanwhile is *not*
re-checked and surfaces as "Registration failed." with the database
unchanged; (iii) a GatePlus registration under a fresh msisdn succeeds
although another record already holds the same card. -/
theorem c1_amended_witness :
    NC.ussd (fun p => p)
      ⟨[⟨"bob", "h", "courier", some "Bob", some "bob@x.com", some "DVLA9", some "GHA-123456789-01"⟩], true⟩
      (some [{ level := 16, message := "Enter Ghana Card (e.g., GHA-123456789-01):",
               name := some "Ama", username := some "ama99", email := some "ama@x.com",
               password := some "secret1", dvlaNumber := some "DV-111" }])
      false "GHA-123456789-01" =
      .ok ⟨"Ghana Card already registered. Enter a different Ghana Card:", true,
           .put [{ level := 16,
                   message := "Ghana Card already registered. Enter a different Ghana Card:",
                   name := some "Ama", username := some "ama99", email := some "ama@x.com",
                   password := some "secret1", dvlaNumber := some "DV-111" }],
           ⟨[⟨"bob", "h", "courier", some "Bob", some "bob@x.com", some "DVLA9", some "GHA-123456789-01"⟩], true⟩⟩ ∧
    NC.ussd (fun p => p)
      ⟨[⟨"bob", "h", "courier", some "Bob", some "bob@x.com", some "DVLA9", some "GHA-999999999-99"⟩], true⟩
      (some [{ level := 16, message := "Enter Ghana Card (e.g., GHA-123456789-01):",
               name := some "Ama", username := some "bob", email := some "ama@x.com",
               password := some "secret1", dvlaNumber := some "DV-111" }])
      false "GHA-123456789-01" =
      .ok ⟨"Registration failed. Try again later.", false, .del,
           ⟨[⟨"bob", "h", "courier", some "Bob", some "bob@x.com", some "DVLA9", some "GHA-999999999-99"⟩], true⟩⟩ ∧
    GP.ussd ⟨[⟨"Unknown", "GHA-123456789-01", "0240000001", "pending_verification"⟩], [], [], true⟩
      (some [{ level := 10, message := c1welcome, sessionID := some "sid2", msisdn := some "0240000002" },
             { level := 11, message := c1prompt, fullName := some "Kwame Mensah" }])
      false "GHA-123456789-01" "0240000002" "sid2" =
      .ok ⟨c1thanks, false, .del,
           ⟨[⟨"Unknown", "GHA-123456789-01", "0240000001", "pending_verification"⟩,
             ⟨"Unknown", "GHA-123456789-01", "0240000002", "pending_verification"⟩], [],
            [⟨"0240000002", "register"⟩], true⟩⟩ := by
  refine ⟨?_, ?_, ?_⟩
  · have h := c1_amended.1 (fun p => p)
      ⟨[⟨"bob", "h", "courier", some "Bob", some "bob@x.com", some "DVLA9", some "GHA-123456789-01"⟩], true⟩
      [{ level := 16, message := "Enter Ghana Card (e.g., GHA-123456789-01):",
         name := some "Ama", username := some "ama99", email := some "ama@x.com",
         password := some "secret1", dvlaNumber := some "DV-111" }]
      { level := 16, message := "Enter Ghana Card (e.g., GHA-123456789-01):",
          name := some "Ama", username := some "ama99", email := some "ama@x.com",
          password := some "secret1", dvlaNumber := some "DV-111" }
      "GHA-123456789-01"
      ⟨"bob", "h", "courier", some "Bob", some "bob@x.com", some "DVLA9", some "GHA-123456789-01"⟩
      (by decide) (by decide) rfl rfl (by decide) rfl (by decide)
    simpa using h
  · exact c1_amended.2.1 (fun p => p)
      ⟨[⟨"bob", "h", "courier", some "Bob", some "bob@x.com", some "DVLA9", some "GHA-999999999-99"⟩], true⟩
      [{ level := 16, message := "Enter Ghana Card (e.g., GHA-123456789-01):",
         name := some "Ama", username := some "bob", email := some "ama@x.com",
         password := some "secret1", dvlaNumber := some "DV-111" }]
      { level := 16, message := "Enter Ghana Card (e.g., GHA-123456789-01):",
          name := some "Ama", username := some "bob", email := some "ama@x.com",
          password := some "secret1", dvlaNumber := some "DV-111" }
      "GHA-123456789-01" "bob" "secret1"
      (by decide) (by decide) rfl rfl (by decide) rfl (by decide) rfl rfl (by decide)
  · have h := c1_amended.2.2
      ⟨[⟨"Unknown", "GHA-123456789-01", "0240000001", "pending_verification"⟩], [], [], true⟩
      [{ level := 10, message := c1welcome, sessionID := some "sid2", msisdn := some "0240000002" },
       { level := 11, message := c1prompt, fullName := some "Kwame Mensah" }]
      { level := 11, message := c1prompt, fullName := some "Kwame Mensah" }
      "GHA-123456789-01" "0240000002" "sid2"
      rfl rfl (by decide) (by decide) rfl (by decide)
    simpa [c1thanks] using h
